import Mathlib

/-!
# AP_ICEngine: internal combustion engine controller

A shallow embedding of `libraries/AP_ICEngine/AP_ICEngine.cpp` and
`AP_ICEngine.h`.

Conventions of the embedding

* `uint32_t` millisecond timestamps, the `uint8_t` attempt counter and the
  `uint16_t` PWM values are natural numbers; every place where the C++ can wrap
  carries an explicit `%`.
* `float` quantities (heights, `starter_time`, `starter_delay`, percentages
  handed to `brake_override`) are rationals: the arithmetic is exact.
* Collaborators that the class only reads (the RC channel, the clock, the
  arming flag, the RPM library, the AHRS, the servo library) are inputs of each
  operation, collected in a small record per operation.
* `gcs().send_text` is modelled by the list of notices an operation emits.
-/

namespace AP_ICEngine

/-- The engine states of `enum ICE_State`, in the order of the header. -/
inductive ICE_State where
  | ICE_OFF
  | ICE_START_HEIGHT_DELAY
  | ICE_START_DELAY
  | ICE_STARTING
  | ICE_RUNNING
  deriving DecidableEq, Repr

open ICE_State

/-- The texts handed to `gcs().send_text`, with their formatted arguments. -/
inductive Notice where
  | stopped_check_input
  | engine_stopped
  | height_reached (delta : Rat)
  | waiting_for (seconds : Int)
  | starting_for (seconds : Rat)
  | running_detected (rpm : Int)
  | start_failed
  | running
  | died (rpm : Int)
  | throttle_override (old new : Int)
  | start_control_disabled (t : Nat)
  | takeoff_height (h : Rat)
  deriving DecidableEq, Repr

/-- The `AP_Param` values of the class (`var_info`). `options` is the bit
pattern of the `AP_Int32` bitmask. -/
structure Params where
  enable : Int
  options : Nat
  resarts_allowed : Int
  starter_time : Rat
  starter_delay : Rat
  rpm_threshold_running : Int
  rpm_threshold_starting : Int
  start_percent : Int
  idle_percent : Int
  power_up_time : Int
  temperature_pin : Int
  temperature_min : Int
  temperature_max : Int
  too_hot_throttle_reduction_factor : Rat
  temperature_scaler : Rat
  temperature_offset : Rat
  temperature_ratiometric : Int
  temperature_function : Int
  fuel_offset : Rat

/-- The mutable members of the class. `temperature_source` tells whether the
pointer `temperature.source` has been set. -/
structure ICE where
  state : ICE_State
  starting_attempts : Nat
  starter_start_time_ms : Nat
  starter_last_run_ms : Nat
  engine_power_up_wait_ms : Nat
  initial_height : Rat
  height_required : Rat
  height_pending : Bool
  throttle_overrde_msg_last_ms : Nat
  throttle_prev : Int
  throttle_state_prev : Option ICE_State
  gear_state : Nat
  gear_pwm : Nat
  gear_last_send_ms : Nat
  force_send_status : Bool
  temperature_source : Bool
  temperature_value : Rat
  temperature_last_sample_ms : Nat
  temperature_last_send_ms : Nat
  fuel_value : Rat
  fuel_last_sample_ms : Nat
  fuel_last_send_ms : Nat
  deriving DecidableEq

/-- The result of an operation: its return value, the members afterwards and
the notices it sent. -/
structure Out (α : Type) where
  ret : α
  ice : ICE
  notices : List Notice

/-- What `determine_state` reads from its collaborators during one call.
`channel` is `rc().channel(start_chan-1)`: `none` for `nullptr`, otherwise the
value of `get_radio_in()`, a PWM width in microseconds. The three clock fields are the values returned by
the successive `AP_HAL::millis()` reads of the function body. `rpm` is
`(int32_t)AP::rpm()->get_rpm(rpm_instance-1)`. `position` is the `z` component
delivered by `get_relative_position_NED_origin`, `none` when it fails. -/
structure TickEnv where
  channel : Option Nat
  now_ms : Nat
  millis_starter_start : Nat
  millis_last_run : Nat
  soft_armed : Bool
  rpm_healthy : Bool
  rpm : Int
  position : Option Rat

def UINT32_RANGE : Nat := 4294967296

def UINT16_RANGE : Nat := 65536

def UINT8_RANGE : Nat := 256

def AP_ICENGINE_OPTIONS_MASK_ARMING_REQUIRED_IGNITION : Nat := 1

def AP_ICENGINE_OPTIONS_MASK_ARMING_REQUIRED_START : Nat := 2

/-- Subtraction of two `uint32_t` values, as C++ computes it. -/
def sub32 (a b : Nat) : Nat :=
  (a % UINT32_RANGE + UINT32_RANGE - b % UINT32_RANGE) % UINT32_RANGE

def switch_position_off (cvalue : Nat) : Bool :=
  decide (cvalue ≤ 1300)

def switch_position_acc (cvalue : Nat) : Bool :=
  decide (cvalue > 1300) && decide (cvalue < 1700)

def switch_position_acc_start (cvalue : Nat) : Bool :=
  decide (cvalue ≥ 1700)

def arming_OK_to_ign (p : Params) (e : TickEnv) : Bool :=
  e.soft_armed ||
    (!e.soft_armed &&
      (p.options &&& AP_ICENGINE_OPTIONS_MASK_ARMING_REQUIRED_IGNITION == 0))

def arming_OK_to_start_or_run (p : Params) (e : TickEnv) : Bool :=
  e.soft_armed ||
    (!e.soft_armed &&
      (p.options &&& AP_ICENGINE_OPTIONS_MASK_ARMING_REQUIRED_START == 0))

def system_should_be_off (p : Params) (e : TickEnv) (cvalue : Nat) : Bool :=
  switch_position_off cvalue || !arming_OK_to_ign p e

/-- The local `current_rpm`: `-1` unless the RPM sensor is healthy. -/
def current_rpm (e : TickEnv) : Int :=
  if e.rpm_healthy then e.rpm else -1

/-- The block `if (system_should_be_off) { ... state = ICE_OFF; }`. -/
def force_off (p : Params) (e : TickEnv) (cvalue : Nat) (s : ICE) : ICE :=
  if system_should_be_off p e cvalue then { s with state := ICE_OFF } else s

/-- The state the `switch` of `determine_state` dispatches on; `none` when the
function has returned before the `switch` (no start channel). -/
def evaluated_state (p : Params) (e : TickEnv) (s : ICE) : Option ICE_State :=
  match e.channel with
  | none => none
  | some cv => some (force_off p e (cv % UINT16_RANGE) s).state

/-- The body of `case ICE_OFF`. -/
def case_off (p : Params) (e : TickEnv) (cvalue : Nat) (s : ICE) : ICE × List Notice :=
  let s1 := { s with starting_attempts := 0 }
  if !system_should_be_off p e cvalue &&
      (switch_position_acc cvalue || switch_position_acc_start cvalue) then
    ({ s1 with state := ICE_START_DELAY }, [])
  else
    (s1, [])

/-- The body of `case ICE_START_HEIGHT_DELAY`. -/
def case_start_height_delay (e : TickEnv) (s : ICE) : ICE × List Notice :=
  match e.position with
  | none => (s, [])
  | some z =>
    if s.height_pending || !e.soft_armed then
      ({ s with height_pending := false, initial_height := -z }, [])
    else if -z ≥ s.initial_height + s.height_required then
      ({ s with state := ICE_STARTING }, [Notice.height_reached (-z - s.initial_height)])
    else
      (s, [])

/-- The last part of `case ICE_START_DELAY`: the inter-start delay. -/
def start_delay_starter (p : Params) (now_ms : Nat) (s : ICE) : ICE × List Notice :=
  if p.starter_delay ≤ 0 then
    ({ s with state := ICE_STARTING }, [])
  else if s.starter_last_run_ms = 0 ∨
      ((sub32 now_ms s.starter_last_run_ms : Nat) : Rat) ≥ p.starter_delay * 1000 then
    ({ s with state := ICE_STARTING }, [Notice.starting_for p.starter_delay])
  else
    (s, [])

/-- The body of `case ICE_START_DELAY`. -/
def case_start_delay (p : Params) (e : TickEnv) (cvalue : Nat) (s : ICE) :
    ICE × List Notice :=
  let now_ms := e.now_ms % UINT32_RANGE
  if !switch_position_acc_start cvalue || !arming_OK_to_start_or_run p e then
    (s, [])
  else if p.resarts_allowed ≥ 0 ∧ p.resarts_allowed < (s.starting_attempts : Int) then
    (s, [])
  else if p.power_up_time > 0 then
    if s.engine_power_up_wait_ms = 0 then
      ({ s with engine_power_up_wait_ms := now_ms }, [Notice.waiting_for p.power_up_time])
    else if sub32 now_ms s.engine_power_up_wait_ms <
        (Int.toNat (p.power_up_time % (UINT32_RANGE : Int)) * 1000) % UINT32_RANGE then
      (s, [])
    else
      start_delay_starter p now_ms s
  else
    start_delay_starter p now_ms s

/-- The first statements of `case ICE_STARTING`: the power-up timer is
cleared, the first tick counts an attempt and arms the starter-run timer, and
the last-run time is refreshed. -/
def starting_entry (e : TickEnv) (s : ICE) : ICE :=
  let s1 := { s with engine_power_up_wait_ms := 0 }
  let s2 :=
    if s1.starter_start_time_ms = 0 then
      { s1 with
        starting_attempts := (s1.starting_attempts + 1) % UINT8_RANGE,
        starter_start_time_ms := e.millis_starter_start % UINT32_RANGE }
    else s1
  { s2 with starter_last_run_ms := e.millis_last_run % UINT32_RANGE }

/-- The body of `case ICE_STARTING`. -/
def case_starting (p : Params) (e : TickEnv) (s : ICE) : ICE × List Notice :=
  let now_ms := e.now_ms % UINT32_RANGE
  let s1 := starting_entry e s
  if !arming_OK_to_start_or_run p e then
    ({ s1 with state := ICE_START_DELAY }, [Notice.engine_stopped])
  else if p.rpm_threshold_starting > 0 ∧ current_rpm e ≥ p.rpm_threshold_starting then
    ({ s1 with state := ICE_RUNNING }, [Notice.running_detected (current_rpm e)])
  else if ((sub32 now_ms s1.starter_start_time_ms : Nat) : Rat) ≥ p.starter_time * 1000 then
    if p.rpm_threshold_starting > 0 ∧ current_rpm e < p.rpm_threshold_starting then
      ({ s1 with state := ICE_START_DELAY }, [Notice.start_failed])
    else
      ({ s1 with state := ICE_RUNNING }, [Notice.running])
  else
    (s1, [])

/-- The body of `case ICE_RUNNING`. -/
def case_running (p : Params) (e : TickEnv) (s : ICE) : ICE × List Notice :=
  let s1 := { s with engine_power_up_wait_ms := 0 }
  if !arming_OK_to_start_or_run p e ∧ p.idle_percent ≤ 0 then
    ({ s1 with state := ICE_OFF }, [])
  else if current_rpm e > 0 ∧ p.rpm_threshold_running > 0 ∧
      current_rpm e < p.rpm_threshold_running then
    ({ s1 with state := ICE_START_DELAY }, [Notice.died (current_rpm e)])
  else
    (s1, [])

/-- The `switch (state)` of `determine_state`. -/
def switch_on_state (p : Params) (e : TickEnv) (cvalue : Nat) (s : ICE) :
    ICE × List Notice :=
  match s.state with
  | ICE_OFF => case_off p e cvalue s
  | ICE_START_HEIGHT_DELAY => case_start_height_delay e s
  | ICE_START_DELAY => case_start_delay p e cvalue s
  | ICE_STARTING => case_starting p e s
  | ICE_RUNNING => case_running p e s

/-- The trailing `if (state != ICE_STARTING) starter_start_time_ms = 0;`. -/
def clear_starter_timer (s : ICE) : ICE :=
  if s.state ≠ ICE_STARTING then { s with starter_start_time_ms := 0 } else s

/-- `AP_ICEngine::determine_state`. -/
def determine_state (p : Params) (e : TickEnv) (s : ICE) : Out Unit :=
  match e.channel with
  | none =>
    { ret := (),
      ice := { s with state := ICE_OFF },
      notices := if s.state ≠ ICE_OFF then [Notice.stopped_check_input] else [] }
  | some cv =>
    let cvalue := cv % UINT16_RANGE
    let n1 :=
      if system_should_be_off p e cvalue ∧ s.state ≠ ICE_OFF then [Notice.engine_stopped]
      else []
    let r := switch_on_state p e cvalue (force_off p e cvalue s)
    { ret := (), ice := clear_starter_timer r.1, notices := n1 ++ r.2 }

/-- What `set_output_channels` reads from the servo library:
`get_channel_for(k_ignition)` and `get_channel_for(k_starter)` (`none` for
`nullptr`, otherwise the trim of the channel), `function_assigned(k_engine_gear)`
and the PWM that `get_output_pwm(k_engine_gear, ...)` reads back. -/
structure ServoEnv where
  chan_ignition : Option Nat
  chan_starter : Option Nat
  gear_assigned : Bool
  gear_output_pwm : Nat

/-- A call into `SRV_Channels` that sets an output. -/
inductive ServoWrite where
  | set_output_pwm (pwm : Nat)
  | set_output_scaled (value : Int)
  | set_output_to_trim
  deriving DecidableEq, Repr

/-- The calls one `set_output_channels` makes, per servo function; `none` when
the function is left untouched. -/
structure ServoCmds where
  ignition : Option ServoWrite
  starter : Option ServoWrite
  gear : Option ServoWrite
  deriving DecidableEq, Repr

/-- The enumerators of `MAV_ICE_TRANSMISSION_GEAR_STATE`. The MAVLink headers
that give them their values are not part of the library, so the values are a
parameter of the embedding. -/
structure GearCodes where
  UNKNOWN : Nat
  PARK : Nat
  REVERSE : Nat
  REVERSE_1 : Nat
  NEUTRAL : Nat
  FORWARD : Nat
  FORWARD_1 : Nat
  FORWARD_2 : Nat
  PWM_VALUE : Nat

def AP_ICENGINE_GEAR_PWM_INVALID : Nat := 0

def AP_ICENGINE_TRANSMISSION_GEAR_STATE_PWM_PARK : Nat := 1100

def AP_ICENGINE_TRANSMISSION_GEAR_STATE_PWM_REVERSE1 : Nat := 1300

def AP_ICENGINE_TRANSMISSION_GEAR_STATE_PWM_NEUTRAL : Nat := 1500

def AP_ICENGINE_TRANSMISSION_GEAR_STATE_PWM_FORWARD1 : Nat := 1700

def AP_ICENGINE_TRANSMISSION_GEAR_STATE_PWM_FORWARD2 : Nat := 1900

/-- The ignition write of `set_output_channels`. -/
def ignition_write (v : ServoEnv) (s : ICE) : Option ServoWrite :=
  match s.state with
  | ICE_OFF => v.chan_ignition.map ServoWrite.set_output_pwm
  | ICE_START_HEIGHT_DELAY => some (ServoWrite.set_output_scaled 100)
  | ICE_START_DELAY => some (ServoWrite.set_output_scaled 100)
  | ICE_STARTING => some (ServoWrite.set_output_scaled 100)
  | ICE_RUNNING => some (ServoWrite.set_output_scaled 100)

/-- The starter write of `set_output_channels`. -/
def starter_write (v : ServoEnv) (s : ICE) : Option ServoWrite :=
  match s.state with
  | ICE_OFF => v.chan_starter.map ServoWrite.set_output_pwm
  | ICE_START_HEIGHT_DELAY => some (ServoWrite.set_output_scaled 0)
  | ICE_START_DELAY => some (ServoWrite.set_output_scaled 0)
  | ICE_STARTING => some (ServoWrite.set_output_scaled 100)
  | ICE_RUNNING => some (ServoWrite.set_output_scaled 0)

/-- `AP_ICEngine::set_output_channels`. -/
def set_output_channels (g : GearCodes) (v : ServoEnv) (s : ICE) : Out ServoCmds :=
  let ign := ignition_write v s
  let st := starter_write v s
  if !v.gear_assigned then
    { ret := { ignition := ign, starter := st, gear := none },
      ice := { s with gear_pwm := AP_ICENGINE_GEAR_PWM_INVALID, gear_state := g.UNKNOWN },
      notices := [] }
  else if s.gear_state = g.UNKNOWN then
    { ret := { ignition := ign, starter := st, gear := some ServoWrite.set_output_to_trim },
      ice := { s with gear_pwm := v.gear_output_pwm % UINT16_RANGE },
      notices := [] }
  else
    { ret := { ignition := ign, starter := st,
               gear := some (ServoWrite.set_output_pwm s.gear_pwm) },
      ice := s,
      notices := [] }

/-- `AP_ICEngine::brake_override`; the reference parameter `percentage` is
returned next to the result. -/
def brake_override (p : Params) (s : ICE) (percentage : Rat) : Out (Bool × Rat) :=
  if p.enable ≠ 0 ∧ s.state = ICE_STARTING then
    { ret := (true, 100), ice := s, notices := [] }
  else
    { ret := (false, percentage), ice := s, notices := [] }

/-- What `engine_control` reads: the start channel (as in `TickEnv`) and the
clock value printed in the rejection notice. -/
structure ControlEnv where
  channel : Option Nat
  millis : Nat

/-- `AP_ICEngine::engine_control`. -/
def engine_control (e : ControlEnv) (s : ICE) (start_control _cold_start height_delay : Rat) :
    Out Bool :=
  if start_control ≤ 0 then
    { ret := true, ice := { s with state := ICE_OFF }, notices := [] }
  else if e.channel.isSome ∧ e.channel.getD 0 ≤ 1300 then
    { ret := false, ice := s,
      notices := [Notice.start_control_disabled (e.millis % UINT32_RANGE)] }
  else if height_delay > 0 then
    { ret := true,
      ice := { s with
        height_pending := true, initial_height := 0, height_required := height_delay,
        state := ICE_START_HEIGHT_DELAY },
      notices := [Notice.takeoff_height height_delay] }
  else if s.state ≠ ICE_RUNNING then
    { ret := true, ice := { s with state := ICE_STARTING }, notices := [] }
  else
    { ret := true, ice := s, notices := [] }

/-- What `throttle_override` reads: `SRV_Channels::get_output_scaled(k_throttle)`
and the clock, once inside `too_cold()`, once inside `too_hot()` and once for
the notice. -/
structure ThrottleEnv where
  throttle_scaled : Int
  millis_too_cold : Nat
  millis_too_hot : Nat
  now_ms : Nat

/-- The member `temperature.is_healthy()` of the header, at clock value `t`. -/
def temperature_is_healthy (p : Params) (s : ICE) (t : Nat) : Bool :=
  decide (p.temperature_pin > 0) && decide (s.temperature_last_sample_ms ≠ 0) &&
    decide (sub32 t s.temperature_last_sample_ms < 1000)

/-- The member `temperature.too_hot()` of the header. -/
def temperature_too_hot (p : Params) (s : ICE) : Bool :=
  decide (p.temperature_min < p.temperature_max) &&
    decide (s.temperature_value > (p.temperature_max : Rat))

/-- The member `temperature.too_cold()` of the header. -/
def temperature_too_cold (p : Params) (s : ICE) : Bool :=
  decide (p.temperature_min < p.temperature_max) &&
    decide (s.temperature_value < (p.temperature_min : Rat))

def too_hot (p : Params) (s : ICE) (t : Nat) : Bool :=
  temperature_is_healthy p s t && temperature_too_hot p s

def too_cold (p : Params) (s : ICE) (t : Nat) : Bool :=
  temperature_is_healthy p s t && temperature_too_cold p s

/-- Modelled from the spec: `constrain_float` of AP_Math, which is not part of
the library; the spec calls its result "a clamped [0,1] reduction factor". -/
def constrain_float (amt low high : Rat) : Rat :=
  if amt < low then low else if amt > high then high else amt

/-- Conversion of a `float` to an integer type: the fraction is dropped. -/
def float_to_int (q : Rat) : Int :=
  if 0 ≤ q then Int.floor q else Int.ceil q

/-- Conversion of an integer to `int8_t`. -/
def to_int8 (x : Int) : Int :=
  (x + 128) % 256 - 128

/-- The override value chosen by the `if` chain of `throttle_override`; `none`
for the final `return false`. -/
def throttle_choice (p : Params) (e : ThrottleEnv) (s : ICE) (percentage : Int) :
    Option Int :=
  if s.state = ICE_STARTING ∨ s.state = ICE_START_DELAY then
    some p.start_percent
  else if too_cold p s e.millis_too_cold then
    some 0
  else if too_hot p s e.millis_too_hot then
    some (to_int8 (float_to_int
      ((percentage : Rat) * constrain_float p.too_hot_throttle_reduction_factor 0 1)))
  else
    none

/-- `AP_ICEngine::throttle_override`; the reference parameter `percentage` is
returned next to the result. The function-local `static state_prev` is the
member `throttle_state_prev`, `none` until its declaration is first reached. -/
def throttle_override (p : Params) (e : ThrottleEnv) (s : ICE) (percentage : Int) :
    Out (Bool × Int) :=
  if p.enable = 0 then
    { ret := (false, percentage), ice := s, notices := [] }
  else if s.state = ICE_RUNNING ∧ p.idle_percent > 0 ∧ p.idle_percent < 100 ∧
      p.idle_percent > e.throttle_scaled then
    { ret := (true, to_int8 (p.idle_percent % 256)), ice := s, notices := [] }
  else
    let percentage_old := percentage
    let s1 := { s with throttle_prev := percentage }
    match throttle_choice p e s percentage with
    | none => { ret := (false, percentage), ice := s1, notices := [] }
    | some pct =>
      let s2 := { s1 with throttle_prev := pct }
      let state_prev := s2.throttle_state_prev.getD s2.state
      let now_ms := e.now_ms % UINT32_RANGE
      if sub32 now_ms s2.throttle_overrde_msg_last_ms > 10000 ∨ state_prev ≠ s2.state then
        { ret := (true, pct),
          ice := { s2 with
            throttle_state_prev := some s2.state, throttle_overrde_msg_last_ms := now_ms },
          notices := [Notice.throttle_override percentage_old pct] }
      else
        { ret := (true, pct),
          ice := { s2 with throttle_state_prev := some state_prev },
          notices := [] }

/-- The PWM chosen by the `switch (gearState)` of
`handle_set_ice_transmission_state`; `none` for the `default` label. -/
def gear_pwm_for (g : GearCodes) (gearState pwm_value : Nat) : Option Nat :=
  if gearState = g.PARK then
    some AP_ICENGINE_TRANSMISSION_GEAR_STATE_PWM_PARK
  else if gearState = g.REVERSE ∨ gearState = g.REVERSE_1 then
    some AP_ICENGINE_TRANSMISSION_GEAR_STATE_PWM_REVERSE1
  else if gearState = g.NEUTRAL then
    some AP_ICENGINE_TRANSMISSION_GEAR_STATE_PWM_NEUTRAL
  else if gearState = g.FORWARD ∨ gearState = g.FORWARD_1 then
    some AP_ICENGINE_TRANSMISSION_GEAR_STATE_PWM_FORWARD1
  else if gearState = g.FORWARD_2 then
    some AP_ICENGINE_TRANSMISSION_GEAR_STATE_PWM_FORWARD2
  else if gearState = g.PWM_VALUE then
    some pwm_value
  else
    none

/-- `AP_ICEngine::handle_set_ice_transmission_state`, on the two fields of the
packet it reads: `gearState` is `(uint8_t)packet.param2` and `pwm_value` is
`(uint16_t)packet.param3`. -/
def handle_set_ice_transmission_state (g : GearCodes) (s : ICE) (gearState pwm_value : Nat) :
    Out Bool :=
  match gear_pwm_for g (gearState % UINT8_RANGE) (pwm_value % UINT16_RANGE) with
  | none => { ret := false, ice := s, notices := [] }
  | some pwm =>
    { ret := true,
      ice := { s with
        gear_pwm := pwm, gear_state := gearState % UINT8_RANGE, force_send_status := true },
      notices := [] }

def AP_ICENGINE_TEMPERATURE_INVALID : Rat := -999

def AP_ICENGINE_FUEL_LEVEL_INVALID : Rat := -1

/-- What `update_fuel` reads: `AP::battery().healthy(1)`, `AP::battery().voltage(1)`
and the clock. -/
structure FuelEnv where
  battery_healthy : Bool
  voltage : Rat
  now_ms : Nat

/-- The raw fuel sample of `update_fuel`: `fuel.offset` plus the battery
voltage. -/
def fuel_new_value (p : Params) (e : FuelEnv) : Rat :=
  p.fuel_offset + e.voltage

/-- `AP_ICEngine::update_fuel`. -/
def update_fuel (p : Params) (e : FuelEnv) (s : ICE) : Out Unit :=
  if !e.battery_healthy then
    { ret := (), ice := { s with fuel_value := AP_ICENGINE_FUEL_LEVEL_INVALID }, notices := [] }
  else
    let now_ms := e.now_ms % UINT32_RANGE
    let new_value := fuel_new_value p e
    let s1 :=
      if s.fuel_last_sample_ms = 0 ∨ sub32 s.fuel_last_sample_ms now_ms > 5000 then
        { s with fuel_value := new_value }
      else s
    { ret := (),
      ice := { s1 with
        fuel_value := (1 / 10 : Rat) * s1.fuel_value + (9 / 10 : Rat) * new_value,
        fuel_last_sample_ms := now_ms },
      notices := [] }

/-- What `update_temperature` reads: whether `hal.analogin->channel(pin)`
delivers a source, the two voltage averages of the source and the clock. -/
structure TemperatureEnv where
  analog_channel : Bool
  voltage_average_ratiometric : Rat
  voltage_average : Rat
  now_ms : Nat

/-- The voltage `v` of `update_temperature`. -/
def temperature_voltage (p : Params) (e : TemperatureEnv) : Rat :=
  if p.temperature_ratiometric ≠ 0 then e.voltage_average_ratiometric else e.voltage_average

/-- Modelled from the spec: `is_zero` of AP_Math, which is not part of the
library; the spec describes the discarded hyperbolic sample as the one with
`v == offset`. -/
def is_zero (x : Rat) : Bool :=
  decide (x = 0)

/-- The `switch` on `temperature.function` of `update_temperature`: the raw
sample `new_temp_value`, or `none` where the function returns without
averaging. `isinf` never holds of a rational, so the guard `!isinf(...)` is
left out. -/
def temperature_new_value (p : Params) (e : TemperatureEnv) : Option Rat :=
  let v := temperature_voltage p e
  if p.temperature_function = 0 then
    some ((v - p.temperature_offset) * p.temperature_scaler)
  else if p.temperature_function = 1 then
    some ((p.temperature_offset - v) * p.temperature_scaler)
  else if p.temperature_function = 2 then
    if is_zero (v - p.temperature_offset) then none
    else some (p.temperature_scaler / (v - p.temperature_offset))
  else
    none

/-- `AP_ICEngine::update_temperature`. -/
def update_temperature (p : Params) (e : TemperatureEnv) (s : ICE) : Out Unit :=
  if !s.temperature_source then
    { ret := (), ice := { s with temperature_source := e.analog_channel }, notices := [] }
  else if p.temperature_pin ≤ 0 then
    { ret := (),
      ice := { s with temperature_value := 0, temperature_last_sample_ms := 0 },
      notices := [] }
  else
    match temperature_new_value p e with
    | none => { ret := (), ice := s, notices := [] }
    | some new_temp_value =>
      let now_ms := e.now_ms % UINT32_RANGE
      let s1 :=
        if s.temperature_last_sample_ms = 0 ∨
            sub32 s.temperature_last_sample_ms now_ms > 5000 then
          { s with temperature_value := new_temp_value }
        else s
      { ret := (),
        ice := { s1 with
          temperature_value :=
            (1 / 10 : Rat) * s1.temperature_value + (9 / 10 : Rat) * new_temp_value,
          temperature_last_sample_ms := now_ms },
        notices := [] }

/-- The three status kinds of `send_status`. -/
inductive StatusKind where
  | temp
  | gear
  | fuel
  deriving DecidableEq, Repr

/-- The `COMMAND_LONG` messages of `send_status`, with the channel they go to
and the parameters that are not constant. -/
inductive StatusRecord where
  | coolant_temp (chan : Nat) (current_temp : Rat) (max min : Int)
  | transmission_state (chan : Nat) (gear_state : Nat) (current_gear_pwm : Nat)
  | fuel_level (chan : Nat) (current_fuel : Rat)
  deriving DecidableEq, Repr

def StatusRecord.kind : StatusRecord → StatusKind
  | StatusRecord.coolant_temp _ _ _ _ => StatusKind.temp
  | StatusRecord.transmission_state _ _ _ => StatusKind.gear
  | StatusRecord.fuel_level _ _ => StatusKind.fuel

def StatusRecord.chan : StatusRecord → Nat
  | StatusRecord.coolant_temp c _ _ _ => c
  | StatusRecord.transmission_state c _ _ => c
  | StatusRecord.fuel_level c _ => c

/-- What `send_status` reads: the clock, `GCS_MAVLINK::active_channel_mask()`,
the constant `MAVLINK_COMM_NUM_BUFFERS`, the outcome of each
`HAVE_PAYLOAD_SPACE(chan, COMMAND_LONG)` test (per channel and per kind it
guards), the clock read by `temperature.is_healthy()` on each channel, the
outcome of `SRV_Channels::get_output_pwm(k_engine_gear, ...)` (`none` when it
returns false) and `AP::battery().healthy()`. -/
structure SendEnv where
  now_ms : Nat
  chan_mask : Nat
  num_buffers : Nat
  payload_space : Nat → StatusKind → Bool
  millis_is_healthy : Nat → Nat
  gear_output_pwm : Option Nat
  battery_healthy : Bool

def send_temp (e : SendEnv) (s : ICE) : Bool :=
  s.force_send_status ||
    decide (sub32 (e.now_ms % UINT32_RANGE) s.temperature_last_send_ms ≥ 1000)

def send_gear (e : SendEnv) (s : ICE) : Bool :=
  s.force_send_status || decide (sub32 (e.now_ms % UINT32_RANGE) s.gear_last_send_ms ≥ 1000)

def send_fuel (e : SendEnv) (s : ICE) : Bool :=
  s.force_send_status || decide (sub32 (e.now_ms % UINT32_RANGE) s.fuel_last_send_ms ≥ 1000)

/-- The channels the loop of `send_status` does not skip. -/
def active_channels (e : SendEnv) : List Nat :=
  (List.range e.num_buffers).filter (fun chan => e.chan_mask.testBit chan)

def temp_goes (e : SendEnv) (s : ICE) (chan : Nat) : Bool :=
  send_temp e s && e.payload_space chan StatusKind.temp

def gear_goes (e : SendEnv) (s : ICE) (chan : Nat) : Bool :=
  e.gear_output_pwm.isSome && send_gear e s && e.payload_space chan StatusKind.gear

def fuel_goes (e : SendEnv) (s : ICE) (chan : Nat) : Bool :=
  send_fuel e s && e.payload_space chan StatusKind.fuel

/-- The messages one pass of the loop body of `send_status` sends. -/
def send_status_channel (p : Params) (e : SendEnv) (s : ICE) (chan : Nat) :
    List StatusRecord :=
  (if temp_goes e s chan then
      [StatusRecord.coolant_temp chan
        (if temperature_is_healthy p s (e.millis_is_healthy chan) then s.temperature_value
          else AP_ICENGINE_TEMPERATURE_INVALID)
        p.temperature_max p.temperature_min]
    else []) ++
  (if gear_goes e s chan then
      [StatusRecord.transmission_state chan s.gear_state
        (e.gear_output_pwm.getD AP_ICENGINE_GEAR_PWM_INVALID)]
    else []) ++
  (if fuel_goes e s chan then
      [StatusRecord.fuel_level chan
        (if e.battery_healthy then s.fuel_value else AP_ICENGINE_FUEL_LEVEL_INVALID)]
    else [])

/-- `AP_ICEngine::send_status`; the result lists the messages sent, in order.
The tests and the message contents use the members as they are on entry: the
flag is read into `force` before it is cleared and the last-send times are
written after the loop. -/
def send_status (p : Params) (e : SendEnv) (s : ICE) : Out (List StatusRecord) :=
  let now_ms := e.now_ms % UINT32_RANGE
  let chans := active_channels e
  let temp_sent := chans.any (temp_goes e s)
  let gear_sent := chans.any (gear_goes e s)
  let fuel_sent := chans.any (fuel_goes e s)
  { ret := chans.flatMap (send_status_channel p e s),
    ice := { s with
      force_send_status := false,
      temperature_last_send_ms := if temp_sent then now_ms else s.temperature_last_send_ms,
      gear_last_send_ms := if gear_sent then now_ms else s.gear_last_send_ms,
      fuel_last_send_ms := if fuel_sent then now_ms else s.fuel_last_send_ms },
    notices := [] }

/-- The enumerators of `MAV_ICE_TRANSMISSION_GEAR_STATE` that
`handle_set_ice_transmission_state` has a `case` label for. -/
def GearCodes.labels (g : GearCodes) : List Nat :=
  [g.PARK, g.REVERSE, g.REVERSE_1, g.NEUTRAL, g.FORWARD, g.FORWARD_1, g.FORWARD_2, g.PWM_VALUE]

/-- An assignment of values to the enumerators with which the `switch` of
`handle_set_ice_transmission_state` compiles and which a `uint8_t` can hold:
the `case` labels are pairwise different and below 256. -/
def GearCodes.valid (g : GearCodes) : Prop :=
  g.labels.Nodup ∧ ∀ c ∈ g.labels, c < UINT8_RANGE

instance (g : GearCodes) : Decidable g.valid := by
  unfold GearCodes.valid
  infer_instance

/-- A sample assignment of the enumerators, in the order of `GearCodes`. -/
def GearCodes.sample : GearCodes :=
  { UNKNOWN := 0, PARK := 1, REVERSE := 2, REVERSE_1 := 3, NEUTRAL := 4, FORWARD := 5,
    FORWARD_1 := 6, FORWARD_2 := 7, PWM_VALUE := 8 }

/-- Runs `determine_state` once per element of `es`, in order. -/
def run_ticks (p : Params) : List TickEnv → ICE → ICE
  | [], s => s
  | e :: es, s => run_ticks p es (determine_state p e s).ice

/-- One tick leaves a height-delayed start lingering: the channel is
configured, the system is not forced off, the position is available, and the
height `-z` is below `initial_height + height_required` unless the tick only
latches the initial height (pending flag set, or disarmed). -/
def below_trigger (p : Params) (e : TickEnv) (s : ICE) : Bool :=
  match e.channel, e.position with
  | some cv, some z =>
    !system_should_be_off p e (cv % UINT16_RANGE) &&
      (s.height_pending || !e.soft_armed ||
        decide (-z < s.initial_height + s.height_required))
  | _, _ => false

/-- The height stays below the trigger on every tick of a run. -/
def stays_below (p : Params) : List TickEnv → ICE → Bool
  | [], _ => true
  | e :: es, s => below_trigger p e s && stays_below p es (determine_state p e s).ice

/-- A telemetry environment with one active link (channel 0) that always has
room, a gear output at 1500 and a healthy battery; the clock reads 5200 ms. -/
def SendEnv.one_link : SendEnv :=
  { now_ms := 5200, chan_mask := 1, num_buffers := 2, payload_space := fun _ _ => true,
    millis_is_healthy := fun _ => 5200, gear_output_pwm := some 1500,
    battery_healthy := true }

/-- `AP_ICEngine::get_temperature`; `t` is the clock value read by
`temperature.is_healthy()`, and the reference parameter `value` is returned
next to the result. -/
def get_temperature (p : Params) (s : ICE) (t : Nat) (value : Rat) : Bool × Rat :=
  if !temperature_is_healthy p s t then (false, value) else (true, s.temperature_value)

/-- A controller at rest: state `ICE_OFF`, every timer and counter zero. -/
def ICE.boot : ICE :=
  { state := ICE_OFF, starting_attempts := 0, starter_start_time_ms := 0,
    starter_last_run_ms := 0, engine_power_up_wait_ms := 0, initial_height := 0,
    height_required := 0, height_pending := false, throttle_overrde_msg_last_ms := 0,
    throttle_prev := 0, throttle_state_prev := none, gear_state := 0, gear_pwm := 0,
    gear_last_send_ms := 0, force_send_status := false, temperature_source := false,
    temperature_value := 0,
    temperature_last_sample_ms := 0, temperature_last_send_ms := 0, fuel_value := 0,
    fuel_last_sample_ms := 0, fuel_last_send_ms := 0 }

/-- The parameter defaults of `var_info` (module enabled). -/
def Params.defaults : Params :=
  { enable := 1, options := 0, resarts_allowed := -1, starter_time := 3, starter_delay := 2,
    rpm_threshold_running := 100, rpm_threshold_starting := 0, start_percent := 5,
    idle_percent := 0, power_up_time := 0, temperature_pin := -1, temperature_min := 10,
    temperature_max := 105, too_hot_throttle_reduction_factor := 1, temperature_scaler := 1,
    temperature_offset := 0, temperature_ratiometric := 1, temperature_function := 0,
    fuel_offset := 0 }

/-- A quiet environment for one tick: switch high, armed, clock at 5000 ms, no
RPM reading, no position. -/
def TickEnv.quiet : TickEnv :=
  { channel := some 1800, now_ms := 5000, millis_starter_start := 5000,
    millis_last_run := 5000, soft_armed := true, rpm_healthy := false, rpm := 0,
    position := none }

/-- A fuel reading: healthy battery monitor at 30 V, clock at `now`. -/
def FuelEnv.reading (now : Nat) : FuelEnv :=
  { battery_healthy := true, voltage := 30, now_ms := now }

/-- A temperature reading: both voltage averages at 30 V, clock at `now`. -/
def TemperatureEnv.reading (now : Nat) : TemperatureEnv :=
  { analog_channel := true, voltage_average_ratiometric := 30, voltage_average := 30,
    now_ms := now }

/-- The defaults with the temperature input on pin 50 (linear function, scaler
1, offset 0, so the raw sample is the voltage). -/
def Params.with_temperature : Params :=
  { Params.defaults with temperature_pin := 50 }

/-- A controller whose two filters hold 20, both sampled at clock value `last`. -/
def ICE.sampled (last : Nat) : ICE :=
  { ICE.boot with
    temperature_source := true, temperature_value := 20, temperature_last_sample_ms := last,
    fuel_value := 20, fuel_last_sample_ms := last }

/-- A throttle environment: throttle output at 50, clock at 5000 ms. -/
def ThrottleEnv.half : ThrottleEnv :=
  { throttle_scaled := 50, millis_too_cold := 5000, millis_too_hot := 5000, now_ms := 5000 }

/-- A controller that is cranking: state `ICE_STARTING`, one attempt counted,
the starter-run timer armed at 1000 ms. -/
def ICE.cranking : ICE :=
  { ICE.boot with
    state := ICE_STARTING, starting_attempts := 1, starter_start_time_ms := 1000,
    starter_last_run_ms := 1000 }

/-- A tick during which no start channel is configured. -/
def TickEnv.no_channel : TickEnv :=
  { TickEnv.quiet with channel := none }

/-- The defaults with a power-up wait of 10 s and no delay between starts. -/
def Params.power_up : Params :=
  { Params.defaults with power_up_time := 10, starter_delay := 0 }

/-- A controller that waits in `ICE_START_DELAY` with the power-up timer armed
at 1000 ms. -/
def ICE.powering_up : ICE :=
  { ICE.boot with state := ICE_START_DELAY, engine_power_up_wait_ms := 1000 }

/-- A tick at clock value `now` with the start switch reading `cv`, armed. -/
def TickEnv.switch_at (cv now : Nat) : TickEnv :=
  { TickEnv.quiet with
    channel := some cv, now_ms := now, millis_starter_start := now, millis_last_run := now }

/-- The last-send time the rate limit of a status kind is measured from. -/
def ICE.last_send_ms (s : ICE) : StatusKind → Nat
  | StatusKind.temp => s.temperature_last_send_ms
  | StatusKind.gear => s.gear_last_send_ms
  | StatusKind.fuel => s.fuel_last_send_ms

/-- Whether `send_status` has a message of a kind to send at all: the gear kind
needs `SRV_Channels::get_output_pwm(k_engine_gear, ...)` to succeed (`hasGear`),
the two other kinds are always there. -/
def kind_available (e : SendEnv) : StatusKind → Bool
  | StatusKind.temp => true
  | StatusKind.gear => e.gear_output_pwm.isSome
  | StatusKind.fuel => true

/-- The test of `send_status` that lets kind `k` go out on channel `chan`. -/
def kind_goes (e : SendEnv) (s : ICE) (chan : Nat) : StatusKind → Bool
  | StatusKind.temp => temp_goes e s chan
  | StatusKind.gear => gear_goes e s chan
  | StatusKind.fuel => fuel_goes e s chan

/-- A message of kind `k` is among `rs`. -/
def sent (rs : List StatusRecord) (k : StatusKind) : Prop :=
  ∃ r ∈ rs, r.kind = k

/-- A message of kind `k` for channel `chan` is among `rs`. -/
def sent_on (rs : List StatusRecord) (k : StatusKind) (chan : Nat) : Prop :=
  ∃ r ∈ rs, r.kind = k ∧ r.chan = chan

/-- The environment `SendEnv.one_link` with a link that has no room for any
message. -/
def SendEnv.no_room : SendEnv :=
  { SendEnv.one_link with payload_space := fun _ _ => false }

/-- A controller at rest that sent each status kind at 5000 ms. -/
def ICE.just_sent : ICE :=
  { ICE.boot with
    temperature_last_send_ms := 5000, gear_last_send_ms := 5000, fuel_last_send_ms := 5000 }

/-! ## Helper lemmas about one tick -/

theorem mod_uint16_le (cv : Nat) (h : cv ≤ 1300) : cv % UINT16_RANGE ≤ 1300 :=
  le_trans (Nat.mod_le cv UINT16_RANGE) h

theorem force_off_state_of_off (p : Params) (e : TickEnv) (cvalue : Nat) (s : ICE)
    (h : system_should_be_off p e cvalue = true) :
    (force_off p e cvalue s).state = ICE_OFF := by
  simp [force_off, h]

theorem force_off_of_not_off (p : Params) (e : TickEnv) (cvalue : Nat) (s : ICE)
    (h : system_should_be_off p e cvalue = false) :
    force_off p e cvalue s = s := by
  simp [force_off, h]

theorem clear_starter_timer_state (s : ICE) : (clear_starter_timer s).state = s.state := by
  unfold clear_starter_timer
  split <;> rfl

theorem case_off_state_of_off (p : Params) (e : TickEnv) (cvalue : Nat) (s : ICE)
    (h : system_should_be_off p e cvalue = true) (hs : s.state = ICE_OFF) :
    (case_off p e cvalue s).1.state = ICE_OFF := by
  simp [case_off, h, hs]

theorem determine_state_some (p : Params) (e : TickEnv) (s : ICE) (cv : Nat)
    (hc : e.channel = some cv) :
    (determine_state p e s).ice =
      clear_starter_timer
        (switch_on_state p e (cv % UINT16_RANGE) (force_off p e (cv % UINT16_RANGE) s)).1 := by
  simp [determine_state, hc]

theorem determine_state_none (p : Params) (e : TickEnv) (s : ICE) (hc : e.channel = none) :
    (determine_state p e s).ice = { s with state := ICE_OFF } := by
  simp [determine_state, hc]

theorem tick_forced_off (p : Params) (e : TickEnv) (s : ICE) (cv : Nat)
    (hc : e.channel = some cv)
    (h : system_should_be_off p e (cv % UINT16_RANGE) = true) :
    (determine_state p e s).ice.state = ICE_OFF := by
  rw [determine_state_some p e s cv hc, clear_starter_timer_state]
  have h1 := force_off_state_of_off p e (cv % UINT16_RANGE) s h
  simp only [switch_on_state, h1]
  exact case_off_state_of_off p e _ _ h h1

theorem force_off_attempts (p : Params) (e : TickEnv) (cvalue : Nat) (s : ICE) :
    (force_off p e cvalue s).starting_attempts = s.starting_attempts ∧
    (force_off p e cvalue s).starter_start_time_ms = s.starter_start_time_ms := by
  unfold force_off
  split <;> exact ⟨rfl, rfl⟩

theorem force_off_state_cases (p : Params) (e : TickEnv) (cvalue : Nat) (s : ICE) :
    (force_off p e cvalue s).state = ICE_OFF ∨ (force_off p e cvalue s).state = s.state := by
  unfold force_off
  split
  · exact Or.inl rfl
  · exact Or.inr rfl

theorem clear_starter_timer_attempts (s : ICE) :
    (clear_starter_timer s).starting_attempts = s.starting_attempts := by
  unfold clear_starter_timer
  split <;> rfl

theorem case_off_attempts (p : Params) (e : TickEnv) (cvalue : Nat) (s : ICE) :
    (case_off p e cvalue s).1.starting_attempts = 0 := by
  unfold case_off
  split <;> rfl

theorem case_off_state (p : Params) (e : TickEnv) (cvalue : Nat) (s : ICE)
    (hs : s.state = ICE_OFF) :
    (case_off p e cvalue s).1.state = ICE_OFF ∨
      (case_off p e cvalue s).1.state = ICE_START_DELAY := by
  unfold case_off
  split
  · exact Or.inr rfl
  · exact Or.inl hs

theorem case_start_height_delay_attempts (e : TickEnv) (s : ICE) :
    (case_start_height_delay e s).1.starting_attempts = s.starting_attempts := by
  unfold case_start_height_delay
  split
  · rfl
  · split_ifs <;> rfl

theorem start_delay_starter_attempts (p : Params) (now_ms : Nat) (s : ICE) :
    (start_delay_starter p now_ms s).1.starting_attempts = s.starting_attempts := by
  unfold start_delay_starter
  split_ifs <;> rfl

theorem case_start_delay_attempts (p : Params) (e : TickEnv) (cvalue : Nat) (s : ICE) :
    (case_start_delay p e cvalue s).1.starting_attempts = s.starting_attempts := by
  simp only [case_start_delay]
  split_ifs <;> first | rfl | exact start_delay_starter_attempts p _ s

theorem starting_entry_attempts (e : TickEnv) (s : ICE) :
    (starting_entry e s).starting_attempts =
      if s.starter_start_time_ms = 0 then (s.starting_attempts + 1) % UINT8_RANGE
      else s.starting_attempts := by
  simp only [starting_entry]
  split_ifs <;> rfl

theorem case_starting_attempts (p : Params) (e : TickEnv) (s : ICE) :
    (case_starting p e s).1.starting_attempts = (starting_entry e s).starting_attempts := by
  simp only [case_starting]
  split_ifs <;> rfl

theorem case_running_attempts (p : Params) (e : TickEnv) (s : ICE) :
    (case_running p e s).1.starting_attempts = s.starting_attempts := by
  simp only [case_running]
  split_ifs <;> rfl

theorem case_running_state (p : Params) (e : TickEnv) (s : ICE) (hs : s.state = ICE_RUNNING) :
    (case_running p e s).1.state = ICE_OFF ∨ (case_running p e s).1.state = ICE_START_DELAY ∨
      (case_running p e s).1.state = ICE_RUNNING := by
  simp only [case_running]
  split_ifs
  · exact Or.inl rfl
  · exact Or.inr (Or.inl rfl)
  · exact Or.inr (Or.inr hs)

/-- How one tick changes the attempt counter, by the state the `switch`
dispatches on. -/
theorem tick_attempts (p : Params) (e : TickEnv) (s : ICE) :
    (determine_state p e s).ice.starting_attempts =
      match evaluated_state p e s with
      | none => s.starting_attempts
      | some ICE_OFF => 0
      | some ICE_STARTING =>
        if s.starter_start_time_ms = 0 then (s.starting_attempts + 1) % UINT8_RANGE
        else s.starting_attempts
      | some _ => s.starting_attempts := by
  cases hc : e.channel with
  | none => simp [evaluated_state, hc, determine_state]
  | some cv =>
    rw [determine_state_some p e s cv hc, clear_starter_timer_attempts]
    simp only [evaluated_state, hc]
    have hf := force_off_attempts p e (cv % UINT16_RANGE) s
    cases hst : (force_off p e (cv % UINT16_RANGE) s).state with
    | ICE_OFF => simp [switch_on_state, hst, case_off_attempts]
    | ICE_START_HEIGHT_DELAY =>
      simp [switch_on_state, hst, case_start_height_delay_attempts, hf.1]
    | ICE_START_DELAY => simp [switch_on_state, hst, case_start_delay_attempts, hf.1]
    | ICE_STARTING =>
      simp [switch_on_state, hst, case_starting_attempts, starting_entry_attempts, hf.1, hf.2]
    | ICE_RUNNING => simp [switch_on_state, hst, case_running_attempts, hf.1]

/-- A tick that begins in `ICE_OFF` ends in `ICE_OFF` or `ICE_START_DELAY`. -/
theorem tick_from_off (p : Params) (e : TickEnv) (s : ICE) (hs : s.state = ICE_OFF) :
    (determine_state p e s).ice.state = ICE_OFF ∨
      (determine_state p e s).ice.state = ICE_START_DELAY := by
  cases hc : e.channel with
  | none => left; rw [determine_state_none p e s hc]
  | some cv =>
    rw [determine_state_some p e s cv hc, clear_starter_timer_state]
    have h1 : (force_off p e (cv % UINT16_RANGE) s).state = ICE_OFF := by
      rcases force_off_state_cases p e (cv % UINT16_RANGE) s with h | h
      · exact h
      · rw [h, hs]
    simp only [switch_on_state, h1]
    exact case_off_state p e _ _ h1

/-- A tick that begins in `ICE_RUNNING` ends in `ICE_OFF`, `ICE_START_DELAY` or
`ICE_RUNNING`. -/
theorem tick_from_running (p : Params) (e : TickEnv) (s : ICE) (hs : s.state = ICE_RUNNING) :
    (determine_state p e s).ice.state = ICE_OFF ∨
      (determine_state p e s).ice.state = ICE_START_DELAY ∨
      (determine_state p e s).ice.state = ICE_RUNNING := by
  cases hc : e.channel with
  | none => left; rw [determine_state_none p e s hc]
  | some cv =>
    cases hoff : system_should_be_off p e (cv % UINT16_RANGE) with
    | true => left; exact tick_forced_off p e s cv hc hoff
    | false =>
      rw [determine_state_some p e s cv hc, clear_starter_timer_state,
        force_off_of_not_off p e _ s hoff]
      simp only [switch_on_state, hs]
      exact case_running_state p e s hs

theorem engine_control_attempts (e : ControlEnv) (s : ICE) (a b c : Rat) :
    (engine_control e s a b c).ice.starting_attempts = s.starting_attempts := by
  unfold engine_control
  split_ifs <;> rfl

theorem throttle_override_attempts (p : Params) (e : ThrottleEnv) (s : ICE) (pct : Int) :
    (throttle_override p e s pct).ice.starting_attempts = s.starting_attempts ∧
    (throttle_override p e s pct).ice.state = s.state := by
  simp only [throttle_override]
  split_ifs <;> first | exact ⟨rfl, rfl⟩ | (split <;> exact ⟨rfl, rfl⟩)

theorem gear_command_attempts (g : GearCodes) (s : ICE) (a b : Nat) :
    (handle_set_ice_transmission_state g s a b).ice.starting_attempts = s.starting_attempts ∧
    (handle_set_ice_transmission_state g s a b).ice.state = s.state := by
  unfold handle_set_ice_transmission_state
  split <;> exact ⟨rfl, rfl⟩

theorem brake_override_ice (p : Params) (s : ICE) (pct : Rat) :
    (brake_override p s pct).ice = s := by
  unfold brake_override
  split_ifs <;> rfl

/-- With pairwise different labels below 256, the `switch` of the gear command
selects by label. -/
theorem gear_pwm_for_labels (g : GearCodes) (hv : g.valid) (pwm_value : Nat) :
    gear_pwm_for g (g.PARK % UINT8_RANGE) pwm_value = some 1100 ∧
    gear_pwm_for g (g.REVERSE % UINT8_RANGE) pwm_value = some 1300 ∧
    gear_pwm_for g (g.REVERSE_1 % UINT8_RANGE) pwm_value = some 1300 ∧
    gear_pwm_for g (g.NEUTRAL % UINT8_RANGE) pwm_value = some 1500 ∧
    gear_pwm_for g (g.FORWARD % UINT8_RANGE) pwm_value = some 1700 ∧
    gear_pwm_for g (g.FORWARD_1 % UINT8_RANGE) pwm_value = some 1700 ∧
    gear_pwm_for g (g.FORWARD_2 % UINT8_RANGE) pwm_value = some 1900 ∧
    gear_pwm_for g (g.PWM_VALUE % UINT8_RANGE) pwm_value = some pwm_value := by
  obtain ⟨hnd, hlt⟩ := hv
  simp only [GearCodes.labels, List.nodup_cons, List.mem_cons, List.mem_singleton,
    List.not_mem_nil, not_or, List.nodup_nil, or_false, and_true] at hnd
  simp only [GearCodes.labels, List.mem_cons, List.mem_singleton, List.not_mem_nil,
    or_false, forall_eq_or_imp, forall_eq] at hlt
  obtain ⟨h1, h2, h3, h4, h5, h6, h7, h8⟩ := hlt
  obtain ⟨⟨a1, a2, a3, a4, a5, a6, a7⟩, ⟨b1, b2, b3, b4, b5, b6⟩, ⟨c1, c2, c3, c4, c5⟩,
    ⟨d1, d2, d3, d4⟩, ⟨e1, e2, e3⟩, ⟨f1, f2⟩, f3, _⟩ := hnd
  rw [Nat.mod_eq_of_lt h1, Nat.mod_eq_of_lt h2, Nat.mod_eq_of_lt h3, Nat.mod_eq_of_lt h4,
    Nat.mod_eq_of_lt h5, Nat.mod_eq_of_lt h6, Nat.mod_eq_of_lt h7, Nat.mod_eq_of_lt h8]
  refine ⟨?_, ?_, ?_, ?_, ?_, ?_, ?_, ?_⟩
  · simp [gear_pwm_for, AP_ICENGINE_TRANSMISSION_GEAR_STATE_PWM_PARK]
  · simp [gear_pwm_for, AP_ICENGINE_TRANSMISSION_GEAR_STATE_PWM_REVERSE1, Ne.symm a1]
  · simp [gear_pwm_for, AP_ICENGINE_TRANSMISSION_GEAR_STATE_PWM_REVERSE1, Ne.symm a2]
  · simp [gear_pwm_for, AP_ICENGINE_TRANSMISSION_GEAR_STATE_PWM_NEUTRAL, Ne.symm a3,
      Ne.symm b2, Ne.symm c1]
  · simp [gear_pwm_for, AP_ICENGINE_TRANSMISSION_GEAR_STATE_PWM_FORWARD1, Ne.symm a4,
      Ne.symm b3, Ne.symm c2, Ne.symm d1]
  · simp [gear_pwm_for, AP_ICENGINE_TRANSMISSION_GEAR_STATE_PWM_FORWARD1, Ne.symm a5,
      Ne.symm b4, Ne.symm c3, Ne.symm d2]
  · simp [gear_pwm_for, AP_ICENGINE_TRANSMISSION_GEAR_STATE_PWM_FORWARD2, Ne.symm a6,
      Ne.symm b5, Ne.symm c4, Ne.symm d3, Ne.symm e2, Ne.symm f1]
  · simp [gear_pwm_for, Ne.symm a7, Ne.symm b6, Ne.symm c5, Ne.symm d4, Ne.symm e3,
      Ne.symm f2, Ne.symm f3]

theorem gear_pwm_for_none (g : GearCodes) (c pwm_value : Nat) (h : c ∉ g.labels) :
    gear_pwm_for g c pwm_value = none := by
  simp only [GearCodes.labels, List.mem_cons, List.mem_singleton, List.not_mem_nil,
    or_false, not_or] at h
  simp only [gear_pwm_for]
  split_ifs <;> first | rfl | omega

theorem gear_command_of_some (g : GearCodes) (s : ICE) (c pwm_value pwm : Nat)
    (h : gear_pwm_for g (c % UINT8_RANGE) (pwm_value % UINT16_RANGE) = some pwm) :
    (handle_set_ice_transmission_state g s c pwm_value).ret = true ∧
    (handle_set_ice_transmission_state g s c pwm_value).ice =
      { s with gear_pwm := pwm, gear_state := c % UINT8_RANGE, force_send_status := true } := by
  simp [handle_set_ice_transmission_state, h]

/-- A tick that begins in `ICE_START_HEIGHT_DELAY` and is not forced off runs
the height-delay case. -/
theorem tick_height_delay (p : Params) (e : TickEnv) (s : ICE) (cv : Nat)
    (hc : e.channel = some cv)
    (hoff : system_should_be_off p e (cv % UINT16_RANGE) = false)
    (hs : s.state = ICE_START_HEIGHT_DELAY) :
    (determine_state p e s).ice = clear_starter_timer (case_start_height_delay e s).1 := by
  rw [determine_state_some p e s cv hc, force_off_of_not_off p e _ s hoff]
  simp only [switch_on_state, hs]

/-- The height-delay tick when it latches the initial height. -/
theorem tick_height_latch (p : Params) (e : TickEnv) (s : ICE) (cv : Nat) (z : Rat)
    (hc : e.channel = some cv)
    (hoff : system_should_be_off p e (cv % UINT16_RANGE) = false)
    (hs : s.state = ICE_START_HEIGHT_DELAY)
    (hp : e.position = some z)
    (hl : s.height_pending = true ∨ e.soft_armed = false) :
    (determine_state p e s).ice.state = ICE_START_HEIGHT_DELAY ∧
    (determine_state p e s).ice.initial_height = -z ∧
    (determine_state p e s).ice.height_pending = false ∧
    (determine_state p e s).ice.height_required = s.height_required := by
  rw [tick_height_delay p e s cv hc hoff hs]
  have hcond : (s.height_pending || !e.soft_armed) = true := by
    rcases hl with h | h <;> simp [h]
  simp [case_start_height_delay, hp, hcond, clear_starter_timer, hs]

/-- The height-delay tick when it compares the height (armed, nothing
pending). -/
theorem tick_height_compare (p : Params) (e : TickEnv) (s : ICE) (cv : Nat) (z : Rat)
    (hc : e.channel = some cv)
    (hoff : system_should_be_off p e (cv % UINT16_RANGE) = false)
    (hs : s.state = ICE_START_HEIGHT_DELAY)
    (hp : e.position = some z)
    (hpend : s.height_pending = false) (harm : e.soft_armed = true) :
    (determine_state p e s).ice.state =
        (if -z ≥ s.initial_height + s.height_required then ICE_STARTING
          else ICE_START_HEIGHT_DELAY) ∧
    (determine_state p e s).ice.initial_height = s.initial_height ∧
    (determine_state p e s).ice.height_pending = false ∧
    (determine_state p e s).ice.height_required = s.height_required := by
  rw [tick_height_delay p e s cv hc hoff hs]
  simp only [case_start_height_delay, hp, hpend, harm, clear_starter_timer]
  by_cases hge : -z ≥ s.initial_height + s.height_required
  · simp [hge, hpend]
  · simp [hge, hs, hpend]

/-- A run of ticks on which the height stays below the trigger keeps the state
`ICE_START_HEIGHT_DELAY`. -/
theorem run_ticks_stays_below (p : Params) (es : List TickEnv) :
    ∀ s : ICE, s.state = ICE_START_HEIGHT_DELAY → stays_below p es s = true →
      (run_ticks p es s).state = ICE_START_HEIGHT_DELAY := by
  induction es with
  | nil => intro s hs _; exact hs
  | cons e es ih =>
    intro s hs hb
    simp only [stays_below, Bool.and_eq_true] at hb
    obtain ⟨hstep, hrest⟩ := hb
    simp only [run_ticks]
    apply ih _ _ hrest
    cases hc : e.channel with
    | none => simp [below_trigger, hc] at hstep
    | some cv =>
      cases hp : e.position with
      | none => simp [below_trigger, hc, hp] at hstep
      | some z =>
        simp only [below_trigger, hc, hp, Bool.and_eq_true, Bool.not_eq_true',
          Bool.or_eq_true, decide_eq_true_eq] at hstep
        obtain ⟨hoff, hcase⟩ := hstep
        rcases hcase with (hpend | harm) | hlt
        · exact (tick_height_latch p e s cv z hc hoff hs hp (Or.inl hpend)).1
        · exact (tick_height_latch p e s cv z hc hoff hs hp (Or.inr harm)).1
        · cases hpend : s.height_pending with
          | true => exact (tick_height_latch p e s cv z hc hoff hs hp (Or.inl hpend)).1
          | false =>
            cases harm : e.soft_armed with
            | false => exact (tick_height_latch p e s cv z hc hoff hs hp (Or.inr harm)).1
            | true =>
              rw [(tick_height_compare p e s cv z hc hoff hs hp hpend harm).1,
                if_neg (not_le.mpr hlt)]

/-- A start command with a height delay that the switch does not reject arms
the height trigger. -/
theorem engine_control_arm (ce : ControlEnv) (s : ICE) (start_control cold_start hd : Rat)
    (hpos : start_control > 0)
    (hsw : ce.channel = none ∨ ∃ cv, ce.channel = some cv ∧ 1300 < cv)
    (hhd : hd > 0) :
    (engine_control ce s start_control cold_start hd).ice =
      { s with
        height_pending := true, initial_height := 0, height_required := hd,
        state := ICE_START_HEIGHT_DELAY } := by
  have h1 : ¬ start_control ≤ 0 := not_le.mpr hpos
  have h3 : ¬ (ce.channel.isSome ∧ ce.channel.getD 0 ≤ 1300) := by
    rcases hsw with hn | ⟨cv, hcv, hgt⟩
    · simp [hn]
    · rw [hcv]
      simp only [Option.getD_some]
      omega
  simp only [engine_control, if_neg h1, if_neg h3, if_pos hhd]

/-- What a message sent for a channel tells about the tests of that loop
pass. -/
theorem send_status_channel_mem (p : Params) (e : SendEnv) (s : ICE) (chan : Nat)
    (r : StatusRecord) (h : r ∈ send_status_channel p e s chan) :
    r.chan = chan ∧
    (r.kind = StatusKind.temp → temp_goes e s chan = true) ∧
    (r.kind = StatusKind.gear → gear_goes e s chan = true) ∧
    (r.kind = StatusKind.fuel → fuel_goes e s chan = true) := by
  simp only [send_status_channel, List.mem_append] at h
  rcases h with (h | h) | h
  · by_cases hg : temp_goes e s chan = true
    · rw [if_pos hg, List.mem_singleton] at h
      subst h
      simp [StatusRecord.chan, StatusRecord.kind, hg]
    · rw [if_neg hg] at h
      cases h
  · by_cases hg : gear_goes e s chan = true
    · rw [if_pos hg, List.mem_singleton] at h
      subst h
      simp [StatusRecord.chan, StatusRecord.kind, hg]
    · rw [if_neg hg] at h
      cases h
  · by_cases hg : fuel_goes e s chan = true
    · rw [if_pos hg, List.mem_singleton] at h
      subst h
      simp [StatusRecord.chan, StatusRecord.kind, hg]
    · rw [if_neg hg] at h
      cases h

/-- The loop pass of a channel sends each kind whose test succeeds. -/
theorem send_status_channel_sends (p : Params) (e : SendEnv) (s : ICE) (chan : Nat) :
    (temp_goes e s chan = true →
      ∃ r ∈ send_status_channel p e s chan, r.kind = StatusKind.temp ∧ r.chan = chan) ∧
    (gear_goes e s chan = true →
      ∃ r ∈ send_status_channel p e s chan, r.kind = StatusKind.gear ∧ r.chan = chan) ∧
    (fuel_goes e s chan = true →
      ∃ r ∈ send_status_channel p e s chan, r.kind = StatusKind.fuel ∧ r.chan = chan) := by
  refine ⟨?_, ?_, ?_⟩ <;> intro hg
  · refine ⟨StatusRecord.coolant_temp chan
      (if temperature_is_healthy p s (e.millis_is_healthy chan) then s.temperature_value
        else AP_ICENGINE_TEMPERATURE_INVALID) p.temperature_max p.temperature_min, ?_, rfl, rfl⟩
    simp only [send_status_channel, List.mem_append]
    rw [if_pos hg]
    exact Or.inl (Or.inl (List.mem_singleton.mpr rfl))
  · refine ⟨StatusRecord.transmission_state chan s.gear_state
      (e.gear_output_pwm.getD AP_ICENGINE_GEAR_PWM_INVALID), ?_, rfl, rfl⟩
    simp only [send_status_channel, List.mem_append]
    rw [if_pos hg]
    exact Or.inl (Or.inr (List.mem_singleton.mpr rfl))
  · refine ⟨StatusRecord.fuel_level chan
      (if e.battery_healthy then s.fuel_value else AP_ICENGINE_FUEL_LEVEL_INVALID), ?_, rfl, rfl⟩
    simp only [send_status_channel, List.mem_append]
    rw [if_pos hg]
    exact Or.inr (List.mem_singleton.mpr rfl)

theorem send_status_ret_mem (p : Params) (e : SendEnv) (s : ICE) (r : StatusRecord) :
    r ∈ (send_status p e s).ret ↔
      ∃ chan ∈ active_channels e, r ∈ send_status_channel p e s chan := by
  simp only [send_status, List.mem_flatMap]

theorem send_status_clears_flag (p : Params) (e : SendEnv) (s : ICE) :
    (send_status p e s).ice.force_send_status = false := by
  simp only [send_status]

/-- The first sample of the fuel filter replaces the value. -/
theorem update_fuel_first_sample (p : Params) (e : FuelEnv) (s : ICE)
    (hb : e.battery_healthy = true) (h0 : s.fuel_last_sample_ms = 0) :
    (update_fuel p e s).ice.fuel_value = fuel_new_value p e ∧
    (update_fuel p e s).ice.fuel_last_sample_ms = e.now_ms % UINT32_RANGE := by
  simp only [update_fuel, hb, h0]
  constructor
  · simp only [Bool.not_true, Bool.false_eq_true, if_false, true_or, if_true]
    ring
  · simp

/-- The inverted difference `last_sample_ms - now_ms` of the two filters: for a
previous sample taken `d` ms before `now`, with `0 < d` and
`d < 2^32 - 5000`, it exceeds 5000. -/
theorem inverted_difference_large (last now : Nat) (hnow : now < UINT32_RANGE)
    (hlt : last < now) (hd : now - last < UINT32_RANGE - 5000) :
    sub32 last now > 5000 := by
  simp only [sub32, UINT32_RANGE] at *
  omega

/-- A fuel sample that follows the previous one by `d` ms, `0 < d < 2^32 - 5000`,
replaces the value: this covers every sample that is not stale. -/
theorem update_fuel_later_sample (p : Params) (e : FuelEnv) (s : ICE)
    (hb : e.battery_healthy = true) (hnow : e.now_ms < UINT32_RANGE)
    (hlt : s.fuel_last_sample_ms < e.now_ms)
    (hd : e.now_ms - s.fuel_last_sample_ms < UINT32_RANGE - 5000) :
    (update_fuel p e s).ice.fuel_value = fuel_new_value p e := by
  have hbig : sub32 s.fuel_last_sample_ms (e.now_ms % UINT32_RANGE) > 5000 := by
    rw [Nat.mod_eq_of_lt hnow]
    exact inverted_difference_large _ _ hnow hlt hd
  simp only [update_fuel, hb, Bool.not_true, Bool.false_eq_true, if_false, hbig, or_true,
    if_true]
  ring

/-- The result of `throttle_override` when the module is enabled and the idle
rule does not fire. -/
theorem throttle_override_ret (p : Params) (e : ThrottleEnv) (s : ICE) (pct : Int)
    (hen : p.enable ≠ 0)
    (hidle : ¬ (s.state = ICE_RUNNING ∧ p.idle_percent > 0 ∧ p.idle_percent < 100 ∧
      p.idle_percent > e.throttle_scaled)) :
    (throttle_override p e s pct).ret =
      match throttle_choice p e s pct with
      | none => (false, pct)
      | some x => (true, x) := by
  simp only [throttle_override, if_neg hen, if_neg hidle]
  split
  · rfl
  · split_ifs <;> rfl

theorem case_start_height_delay_state (e : TickEnv) (s : ICE)
    (hs : s.state = ICE_START_HEIGHT_DELAY) :
    (case_start_height_delay e s).1.state = ICE_START_HEIGHT_DELAY ∨
      (case_start_height_delay e s).1.state = ICE_STARTING := by
  unfold case_start_height_delay
  split
  · exact Or.inl hs
  · split_ifs
    · exact Or.inl hs
    · exact Or.inr rfl
    · exact Or.inl hs

theorem start_delay_starter_state (p : Params) (now_ms : Nat) (s : ICE)
    (hs : s.state = ICE_START_DELAY) :
    (start_delay_starter p now_ms s).1.state = ICE_START_DELAY ∨
      (start_delay_starter p now_ms s).1.state = ICE_STARTING := by
  unfold start_delay_starter
  split_ifs
  · exact Or.inr rfl
  · exact Or.inr rfl
  · exact Or.inl hs

theorem case_start_delay_state (p : Params) (e : TickEnv) (cvalue : Nat) (s : ICE)
    (hs : s.state = ICE_START_DELAY) :
    (case_start_delay p e cvalue s).1.state = ICE_START_DELAY ∨
      (case_start_delay p e cvalue s).1.state = ICE_STARTING := by
  simp only [case_start_delay]
  split_ifs <;> first | exact Or.inl hs | exact start_delay_starter_state p _ s hs

theorem starting_entry_state (e : TickEnv) (s : ICE) :
    (starting_entry e s).state = s.state := by
  simp only [starting_entry]
  split_ifs <;> rfl

theorem case_starting_state (p : Params) (e : TickEnv) (s : ICE) (hs : s.state = ICE_STARTING) :
    (case_starting p e s).1.state = ICE_STARTING ∨
      (case_starting p e s).1.state = ICE_START_DELAY ∨
      (case_starting p e s).1.state = ICE_RUNNING := by
  simp only [case_starting]
  split_ifs
  · exact Or.inr (Or.inl rfl)
  · exact Or.inr (Or.inr rfl)
  · exact Or.inr (Or.inl rfl)
  · exact Or.inr (Or.inr rfl)
  · exact Or.inl ((starting_entry_state e s).trans hs)

/-- The state after a tick that is not forced off is the one the `switch`
produces from the state before. -/
theorem tick_not_forced (p : Params) (e : TickEnv) (s : ICE) (cv : Nat)
    (hc : e.channel = some cv)
    (hoff : system_should_be_off p e (cv % UINT16_RANGE) = false) :
    (determine_state p e s).ice = clear_starter_timer (switch_on_state p e (cv % UINT16_RANGE) s).1 := by
  rw [determine_state_some p e s cv hc, force_off_of_not_off p e _ s hoff]

/-- A tick that begins in `ICE_START_DELAY` ends in `ICE_OFF`,
`ICE_START_DELAY` or `ICE_STARTING`. -/
theorem tick_from_start_delay (p : Params) (e : TickEnv) (s : ICE)
    (hs : s.state = ICE_START_DELAY) :
    (determine_state p e s).ice.state = ICE_OFF ∨
      (determine_state p e s).ice.state = ICE_START_DELAY ∨
      (determine_state p e s).ice.state = ICE_STARTING := by
  cases hc : e.channel with
  | none => left; rw [determine_state_none p e s hc]
  | some cv =>
    cases hoff : system_should_be_off p e (cv % UINT16_RANGE) with
    | true => left; exact tick_forced_off p e s cv hc hoff
    | false =>
      rw [tick_not_forced p e s cv hc hoff, clear_starter_timer_state]
      simp only [switch_on_state, hs]
      exact Or.inr (case_start_delay_state p e _ s hs)

/-- A tick that begins in `ICE_START_HEIGHT_DELAY` ends in `ICE_OFF`,
`ICE_START_HEIGHT_DELAY` or `ICE_STARTING`. -/
theorem tick_from_height_delay (p : Params) (e : TickEnv) (s : ICE)
    (hs : s.state = ICE_START_HEIGHT_DELAY) :
    (determine_state p e s).ice.state = ICE_OFF ∨
      (determine_state p e s).ice.state = ICE_START_HEIGHT_DELAY ∨
      (determine_state p e s).ice.state = ICE_STARTING := by
  cases hc : e.channel with
  | none => left; rw [determine_state_none p e s hc]
  | some cv =>
    cases hoff : system_should_be_off p e (cv % UINT16_RANGE) with
    | true => left; exact tick_forced_off p e s cv hc hoff
    | false =>
      rw [tick_not_forced p e s cv hc hoff, clear_starter_timer_state]
      simp only [switch_on_state, hs]
      exact Or.inr (case_start_height_delay_state e s hs)

/-- A tick that begins in `ICE_STARTING` ends in `ICE_OFF`, `ICE_STARTING`,
`ICE_START_DELAY` or `ICE_RUNNING`. -/
theorem tick_from_starting (p : Params) (e : TickEnv) (s : ICE)
    (hs : s.state = ICE_STARTING) :
    (determine_state p e s).ice.state = ICE_OFF ∨
      (determine_state p e s).ice.state = ICE_STARTING ∨
      (determine_state p e s).ice.state = ICE_START_DELAY ∨
      (determine_state p e s).ice.state = ICE_RUNNING := by
  cases hc : e.channel with
  | none => left; rw [determine_state_none p e s hc]
  | some cv =>
    cases hoff : system_should_be_off p e (cv % UINT16_RANGE) with
    | true => left; exact tick_forced_off p e s cv hc hoff
    | false =>
      rw [tick_not_forced p e s cv hc hoff, clear_starter_timer_state]
      simp only [switch_on_state, hs]
      exact Or.inr (case_starting_state p e s hs)

/-- With the channel configured, a tick that does not end in `ICE_STARTING`
leaves the starter-run timer unset. -/
theorem tick_clears_starter_timer (p : Params) (e : TickEnv) (s : ICE) (cv : Nat)
    (hc : e.channel = some cv) (hne : (determine_state p e s).ice.state ≠ ICE_STARTING) :
    (determine_state p e s).ice.starter_start_time_ms = 0 := by
  rw [determine_state_some p e s cv hc] at hne ⊢
  rw [clear_starter_timer_state] at hne
  simp only [clear_starter_timer, if_pos hne]

/-- A reading that was never sampled, or whose last sample is 1000 ms old or
older, is not healthy. -/
theorem not_healthy_of_unsampled_or_stale (p : Params) (s : ICE) (t : Nat)
    (h : s.temperature_last_sample_ms = 0 ∨ sub32 t s.temperature_last_sample_ms ≥ 1000) :
    temperature_is_healthy p s t = false := by
  unfold temperature_is_healthy
  rcases h with h | h
  · simp [h]
  · have h2 : ¬ sub32 t s.temperature_last_sample_ms < 1000 := not_lt.mpr h
    simp [h2]

/-- The two temperature predicates are false for a reading that is unsampled
or stale, and for bounds that do not satisfy `min < max`. -/
theorem not_hot_not_cold (p : Params) (s : ICE) (t : Nat)
    (h : s.temperature_last_sample_ms = 0 ∨ sub32 t s.temperature_last_sample_ms ≥ 1000 ∨
      ¬ (p.temperature_min < p.temperature_max)) :
    too_hot p s t = false ∧ too_cold p s t = false := by
  rcases h with h | h | h
  · simp [too_hot, too_cold, not_healthy_of_unsampled_or_stale p s t (Or.inl h)]
  · simp [too_hot, too_cold, not_healthy_of_unsampled_or_stale p s t (Or.inr h)]
  · simp [too_hot, too_cold, temperature_too_hot, temperature_too_cold, h]

/-- With the switch in the middle band and the vehicle armed, nothing forces
the system off and both permissions hold. -/
theorem mid_switch_armed (p : Params) (e : TickEnv) (cv : Nat)
    (hlo : 1301 ≤ cv) (hhi : cv ≤ 1699) (harm : e.soft_armed = true) :
    cv % UINT16_RANGE = cv ∧
    system_should_be_off p e (cv % UINT16_RANGE) = false ∧
    arming_OK_to_start_or_run p e = true ∧
    switch_position_acc cv = true ∧ switch_position_acc_start cv = false := by
  have hmod : cv % UINT16_RANGE = cv := Nat.mod_eq_of_lt (by simp only [UINT16_RANGE]; omega)
  have h1 : ¬ cv ≤ 1300 := by omega
  have h2 : 1300 < cv := by omega
  have h3 : cv < 1700 := by omega
  have h4 : ¬ 1700 ≤ cv := by omega
  refine ⟨hmod, ?_, ?_, ?_, ?_⟩
  · rw [hmod]
    simp [system_should_be_off, switch_position_off, arming_OK_to_ign, harm, h1]
  · simp [arming_OK_to_start_or_run, harm]
  · simp [switch_position_acc, h2, h3]
  · simp [switch_position_acc_start, h4]

theorem engine_control_state (ce : ControlEnv) (s : ICE) (a b c : Rat) :
    (engine_control ce s a b c).ice.state = s.state ∨
      (engine_control ce s a b c).ice.state = ICE_OFF ∨
      (engine_control ce s a b c).ice.state = ICE_START_HEIGHT_DELAY ∨
      (engine_control ce s a b c).ice.state = ICE_STARTING := by
  unfold engine_control
  split_ifs
  · exact Or.inr (Or.inl rfl)
  · exact Or.inl rfl
  · exact Or.inr (Or.inr (Or.inl rfl))
  · exact Or.inr (Or.inr (Or.inr rfl))
  · exact Or.inl rfl

/-- A message of a kind goes out on a channel exactly when the channel is
active and the test of that kind succeeds. -/
theorem send_status_sent_on_goes (p : Params) (e : SendEnv) (s : ICE) (k : StatusKind)
    (chan : Nat) :
    sent_on (send_status p e s).ret k chan ↔
      chan ∈ active_channels e ∧ kind_goes e s chan k = true := by
  constructor
  · rintro ⟨r, hr, hk, hch⟩
    obtain ⟨c, hact, hmem⟩ := (send_status_ret_mem p e s r).mp hr
    obtain ⟨hc, ht, hg, hf⟩ := send_status_channel_mem p e s c r hmem
    have hcc : c = chan := hc.symm.trans hch
    subst hcc
    refine ⟨hact, ?_⟩
    cases k with
    | temp => exact ht hk
    | gear => exact hg hk
    | fuel => exact hf hk
  · rintro ⟨hact, hgo⟩
    obtain ⟨ht, hg, hf⟩ := send_status_channel_sends p e s chan
    cases k with
    | temp =>
      obtain ⟨r, hr, hk⟩ := ht hgo
      exact ⟨r, (send_status_ret_mem p e s r).mpr ⟨chan, hact, hr⟩, hk⟩
    | gear =>
      obtain ⟨r, hr, hk⟩ := hg hgo
      exact ⟨r, (send_status_ret_mem p e s r).mpr ⟨chan, hact, hr⟩, hk⟩
    | fuel =>
      obtain ⟨r, hr, hk⟩ := hf hgo
      exact ⟨r, (send_status_ret_mem p e s r).mpr ⟨chan, hact, hr⟩, hk⟩

/-- The test of a kind on a channel, spelled out: the kind is there to send,
the force flag is up or 1000 ms have passed since the last send of the kind,
and the channel has room. -/
theorem kind_goes_iff (e : SendEnv) (s : ICE) (chan : Nat) (k : StatusKind) :
    kind_goes e s chan k = true ↔
      kind_available e k = true ∧
      (s.force_send_status = true ∨
        sub32 (e.now_ms % UINT32_RANGE) (s.last_send_ms k) ≥ 1000) ∧
      e.payload_space chan k = true := by
  cases k <;>
    simp [kind_goes, kind_available, ICE.last_send_ms, temp_goes, gear_goes, fuel_goes,
      send_temp, send_gear, send_fuel, and_assoc]

theorem sent_iff_sent_on (rs : List StatusRecord) (k : StatusKind) :
    sent rs k ↔ ∃ chan, sent_on rs k chan := by
  constructor
  · rintro ⟨r, hr, hk⟩
    exact ⟨r.chan, r, hr, hk, rfl⟩
  · rintro ⟨_, r, hr, hk, _⟩
    exact ⟨r, hr, hk⟩

/-- The bookkeeping of `send_status`: the last-send time of a kind becomes the
clock value of the call when a message of the kind went out, and stays as it
was otherwise. -/
theorem send_status_stamp (p : Params) (e : SendEnv) (s : ICE) (k : StatusKind) :
    (sent (send_status p e s).ret k →
      (send_status p e s).ice.last_send_ms k = e.now_ms % UINT32_RANGE) ∧
    (¬ sent (send_status p e s).ret k →
      (send_status p e s).ice.last_send_ms k = s.last_send_ms k) := by
  have hany : (active_channels e).any (fun chan => kind_goes e s chan k) = true ↔
      sent (send_status p e s).ret k := by
    rw [sent_iff_sent_on, List.any_eq_true]
    constructor
    · rintro ⟨chan, hact, hgo⟩
      exact ⟨chan, (send_status_sent_on_goes p e s k chan).mpr ⟨hact, hgo⟩⟩
    · rintro ⟨chan, hs⟩
      obtain ⟨hact, hgo⟩ := (send_status_sent_on_goes p e s k chan).mp hs
      exact ⟨chan, hact, hgo⟩
  have hstamp : (send_status p e s).ice.last_send_ms k =
      if (active_channels e).any (fun chan => kind_goes e s chan k) = true
        then e.now_ms % UINT32_RANGE else s.last_send_ms k := by
    cases k <;> rfl
  constructor
  · intro h
    rw [hstamp, if_pos (hany.mpr h)]
  · intro h
    rw [hstamp, if_neg (fun hc => h (hany.mp hc))]

theorem gear_command_keeps_stamps (g : GearCodes) (s : ICE) (a b : Nat) (k : StatusKind) :
    (handle_set_ice_transmission_state g s a b).ice.last_send_ms k = s.last_send_ms k := by
  unfold handle_set_ice_transmission_state
  split <;> cases k <;> rfl

theorem gear_command_raises_flag (g : GearCodes) (s : ICE) (a b : Nat)
    (hacc : (handle_set_ice_transmission_state g s a b).ret = true) :
    (handle_set_ice_transmission_state g s a b).ice.force_send_status = true := by
  unfold handle_set_ice_transmission_state at hacc ⊢
  split
  · rename_i hnone
    rw [hnone] at hacc
    cases hacc
  · rfl

/-! ## The claims -/

/-- C1: for every starting state and every value of the timers and counters, if
the start-input channel is not configured, or it reads 1300 or less, or the
vehicle is disarmed while the arming-required-for-ignition option bit is set,
the state after one `determine_state` tick is `ICE_OFF`. -/
theorem C1_forced_off_within_one_tick (p : Params) (e : TickEnv) (s : ICE)
    (h : e.channel = none ∨ (∃ cv, e.channel = some cv ∧ cv ≤ 1300) ∨
      (e.soft_armed = false ∧
        p.options &&& AP_ICENGINE_OPTIONS_MASK_ARMING_REQUIRED_IGNITION ≠ 0)) :
    (determine_state p e s).ice.state = ICE_OFF := by
  cases hc : e.channel with
  | none => rw [determine_state_none p e s hc]
  | some cv =>
    apply tick_forced_off p e s cv hc
    rcases h with h | ⟨cv2, h2, hle⟩ | ⟨harm, hopt⟩
    · rw [hc] at h
      cases h
    · rw [hc] at h2
      cases h2
      simp [system_should_be_off, switch_position_off, mod_uint16_le cv hle]
    · simp [system_should_be_off, arming_OK_to_ign, harm, hopt]

/-- C1 at a concrete input: a running engine whose switch reads 1200. -/
theorem C1_forced_off_within_one_tick_witness :
    (determine_state Params.defaults { TickEnv.quiet with channel := some 1200 }
      { ICE.boot with state := ICE_RUNNING, starting_attempts := 3 }).ice.state = ICE_OFF :=
  C1_forced_off_within_one_tick _ _ _ (Or.inr (Or.inl ⟨1200, rfl, by decide⟩))

/-- C2: `set_output_channels` maps the engine state onto the ignition and
starter commands. The starter is commanded on (scaled 100) exactly in
`ICE_STARTING`; the ignition is commanded on (scaled 100) exactly when the state
is not `ICE_OFF`; in `ICE_START_HEIGHT_DELAY`, `ICE_START_DELAY` and
`ICE_RUNNING` the starter is commanded off (scaled 0); in `ICE_OFF` each output
is written with its trim PWM when its channel exists and is otherwise not
written. The two commands depend on the engine state and the servo library
only, and the engine state itself is left as it was. -/
theorem C2_output_mapping (g : GearCodes) (v : ServoEnv) (s : ICE) :
    ((set_output_channels g v s).ret.starter = some (ServoWrite.set_output_scaled 100) ↔
        s.state = ICE_STARTING) ∧
    ((set_output_channels g v s).ret.ignition = some (ServoWrite.set_output_scaled 100) ↔
        s.state ≠ ICE_OFF) ∧
    (s.state = ICE_START_HEIGHT_DELAY ∨ s.state = ICE_START_DELAY ∨ s.state = ICE_RUNNING →
        (set_output_channels g v s).ret.starter = some (ServoWrite.set_output_scaled 0)) ∧
    (s.state = ICE_OFF →
        (set_output_channels g v s).ret.ignition =
            v.chan_ignition.map ServoWrite.set_output_pwm ∧
        (set_output_channels g v s).ret.starter =
            v.chan_starter.map ServoWrite.set_output_pwm) ∧
    (∀ s2 : ICE, s2.state = s.state →
        (set_output_channels g v s2).ret.ignition = (set_output_channels g v s).ret.ignition ∧
        (set_output_channels g v s2).ret.starter = (set_output_channels g v s).ret.starter) ∧
    (set_output_channels g v s).ice.state = s.state := by
  have hi : ∀ t : ICE, (set_output_channels g v t).ret.ignition = ignition_write v t := by
    intro t
    unfold set_output_channels
    split_ifs <;> rfl
  have hs : ∀ t : ICE, (set_output_channels g v t).ret.starter = starter_write v t := by
    intro t
    unfold set_output_channels
    split_ifs <;> rfl
  have hst : (set_output_channels g v s).ice.state = s.state := by
    unfold set_output_channels
    split_ifs <;> rfl
  refine ⟨?_, ?_, ?_, ?_, ?_, hst⟩
  · rw [hs]
    cases hstate : s.state <;> cases hc : v.chan_starter <;>
      simp [starter_write, hstate, hc]
  · rw [hi]
    cases hstate : s.state <;> cases hc : v.chan_ignition <;>
      simp [ignition_write, hstate, hc]
  · intro h
    rw [hs]
    rcases h with h | h | h <;> simp [starter_write, h]
  · intro h
    rw [hi, hs]
    simp [ignition_write, starter_write, h]
  · intro s2 h2
    rw [hi, hi, hs, hs]
    simp [ignition_write, starter_write, h2]

/-- C3: for every engine state, enable flag and input percentage `pct`,
`brake_override` returns true with the percentage set to 100 if and only if the
module is enabled and the state is exactly `ICE_STARTING`; in every other case
it returns false and leaves the percentage equal to `pct`. It never changes
the controller. -/
theorem C3_brake_override (p : Params) (s : ICE) (pct : Rat) :
    ((brake_override p s pct).ret = (true, 100) ↔ (p.enable ≠ 0 ∧ s.state = ICE_STARTING)) ∧
    (¬ (p.enable ≠ 0 ∧ s.state = ICE_STARTING) → (brake_override p s pct).ret = (false, pct)) ∧
    (brake_override p s pct).ice = s := by
  unfold brake_override
  split_ifs with h
  · exact ⟨⟨fun _ => h, fun _ => rfl⟩, fun hn => absurd h hn, rfl⟩
  · refine ⟨⟨fun hr => ?_, fun hc => absurd hc h⟩, fun _ => rfl, rfl⟩
    simp at hr

/-- C4: a tick that begins in `ICE_STARTING` with the starter-run timer armed,
the channel configured, the system not forced off and start permission held,
and for which `now - starter_start_time_ms` is at least `starter_time*1000`,
ends in `ICE_RUNNING` when no starting threshold is configured
(`rpm_threshold_starting <= 0`) or the current RPM is at least that threshold,
and in `ICE_START_DELAY` otherwise; it never ends in `ICE_STARTING`. -/
theorem C4_starter_time_elapsed (p : Params) (e : TickEnv) (s : ICE) (cv : Nat)
    (hc : e.channel = some cv)
    (hoff : system_should_be_off p e (cv % UINT16_RANGE) = false)
    (harm : arming_OK_to_start_or_run p e = true)
    (hs : s.state = ICE_STARTING)
    (ht : s.starter_start_time_ms ≠ 0)
    (hel : ((sub32 e.now_ms s.starter_start_time_ms : Nat) : Rat) ≥ p.starter_time * 1000) :
    (determine_state p e s).ice.state =
        (if p.rpm_threshold_starting ≤ 0 ∨ current_rpm e ≥ p.rpm_threshold_starting
          then ICE_RUNNING else ICE_START_DELAY) ∧
    (determine_state p e s).ice.state ≠ ICE_STARTING := by
  have hmain : (determine_state p e s).ice.state =
      (if p.rpm_threshold_starting ≤ 0 ∨ current_rpm e ≥ p.rpm_threshold_starting
        then ICE_RUNNING else ICE_START_DELAY) := by
    rw [determine_state_some p e s cv hc, clear_starter_timer_state,
      force_off_of_not_off p e _ s hoff]
    have hel2 : ((sub32 (e.now_ms % UINT32_RANGE) s.starter_start_time_ms : Nat) : Rat) ≥
        p.starter_time * 1000 := by
      have : sub32 (e.now_ms % UINT32_RANGE) s.starter_start_time_ms =
          sub32 e.now_ms s.starter_start_time_ms := by
        simp [sub32]
      rw [this]
      exact hel
    simp only [switch_on_state, hs, case_starting, starting_entry, harm, if_neg ht]
    by_cases hthr : p.rpm_threshold_starting > 0
    · by_cases hrpm : current_rpm e ≥ p.rpm_threshold_starting
      · simp [hthr, hrpm]
      · have hlt : current_rpm e < p.rpm_threshold_starting := lt_of_not_ge hrpm
        simp [hthr, hel2, hlt, not_le.mpr hlt, not_le.mpr hthr]
    · have hle : p.rpm_threshold_starting ≤ 0 := not_lt.mp hthr
      simp [hthr, hel2, hle]
  refine ⟨hmain, ?_⟩
  rw [hmain]
  split_ifs <;> decide

/-- C4 at a concrete input: defaults (3 s of starter, no starting threshold),
starter armed at 1000 ms, clock at 5000 ms. -/
theorem C4_starter_time_elapsed_witness :
    (determine_state Params.defaults TickEnv.quiet
        { ICE.boot with state := ICE_STARTING, starter_start_time_ms := 1000 }).ice.state =
      (if Params.defaults.rpm_threshold_starting ≤ 0 ∨
          current_rpm TickEnv.quiet ≥ Params.defaults.rpm_threshold_starting
        then ICE_RUNNING else ICE_START_DELAY) ∧
    (determine_state Params.defaults TickEnv.quiet
        { ICE.boot with state := ICE_STARTING, starter_start_time_ms := 1000 }).ice.state ≠
      ICE_STARTING :=
  C4_starter_time_elapsed Params.defaults TickEnv.quiet
    { ICE.boot with state := ICE_STARTING, starter_start_time_ms := 1000 } 1800
    rfl (by decide) (by decide) rfl (by decide)
    (by norm_num [sub32, TickEnv.quiet, ICE.boot, Params.defaults, UINT32_RANGE])

/-- C5, the claim as stated fails: with a healthy RPM sensor that reports 0, a
running threshold of 100, the switch high and the vehicle armed, a tick that
begins in `ICE_RUNNING` ends in `ICE_RUNNING`, not in `ICE_START_DELAY`. -/
theorem C5_healthy_zero_rpm_stays_running :
    ({ TickEnv.quiet with rpm_healthy := true, rpm := 0 } : TickEnv).channel = some 1800 ∧
    system_should_be_off Params.defaults
      { TickEnv.quiet with rpm_healthy := true, rpm := 0 } (1800 % UINT16_RANGE) = false ∧
    arming_OK_to_start_or_run Params.defaults
      { TickEnv.quiet with rpm_healthy := true, rpm := 0 } = true ∧
    ({ TickEnv.quiet with rpm_healthy := true, rpm := 0 } : TickEnv).rpm_healthy = true ∧
    Params.defaults.rpm_threshold_running > 0 ∧
    ({ TickEnv.quiet with rpm_healthy := true, rpm := 0 } : TickEnv).rpm <
      Params.defaults.rpm_threshold_running ∧
    (determine_state Params.defaults { TickEnv.quiet with rpm_healthy := true, rpm := 0 }
      { ICE.boot with state := ICE_RUNNING }).ice.state = ICE_RUNNING := by
  refine ⟨rfl, by decide, by decide, rfl, by decide, by decide, ?_⟩
  decide

/-- C5, amended: a tick that begins in `ICE_RUNNING` with the channel
configured, the system not forced off and run permission held ends in
`ICE_START_DELAY` when the RPM sensor is healthy and reports an RPM greater
than 0, the running threshold is greater than 0 and the RPM is below it. -/
theorem C5_engine_died (p : Params) (e : TickEnv) (s : ICE) (cv : Nat)
    (hc : e.channel = some cv)
    (hoff : system_should_be_off p e (cv % UINT16_RANGE) = false)
    (harm : arming_OK_to_start_or_run p e = true)
    (hs : s.state = ICE_RUNNING)
    (hh : e.rpm_healthy = true)
    (hpos : e.rpm > 0)
    (hthr : p.rpm_threshold_running > 0)
    (hlt : e.rpm < p.rpm_threshold_running) :
    (determine_state p e s).ice.state = ICE_START_DELAY := by
  rw [determine_state_some p e s cv hc, clear_starter_timer_state,
    force_off_of_not_off p e _ s hoff]
  have hr : current_rpm e = e.rpm := by simp [current_rpm, hh]
  simp [switch_on_state, hs, case_running, harm, hr, hpos, hthr, hlt]

/-- C5 amended, at a concrete input: a healthy reading of 40 rpm under a
threshold of 100. -/
theorem C5_engine_died_witness :
    (determine_state Params.defaults { TickEnv.quiet with rpm_healthy := true, rpm := 40 }
      { ICE.boot with state := ICE_RUNNING }).ice.state = ICE_START_DELAY :=
  C5_engine_died Params.defaults { TickEnv.quiet with rpm_healthy := true, rpm := 40 }
    { ICE.boot with state := ICE_RUNNING } 1800 rfl (by decide) (by decide) rfl rfl
    (by decide) (by decide) (by decide)

/-- C6: a tick that begins in `ICE_START_DELAY` with `resarts_allowed >= 0` and
`starting_attempts > resarts_allowed` ends in `ICE_START_DELAY` or `ICE_OFF`,
never in `ICE_STARTING` or `ICE_RUNNING`, whatever the switch, the arming
state, the RPM and the timers are; and it ends in `ICE_START_DELAY` whenever
the channel is configured and the system is not forced off. -/
theorem C6_budget_exhausted_lingers (p : Params) (e : TickEnv) (s : ICE)
    (hs : s.state = ICE_START_DELAY)
    (hn : p.resarts_allowed ≥ 0)
    (hex : (s.starting_attempts : Int) > p.resarts_allowed) :
    ((determine_state p e s).ice.state = ICE_START_DELAY ∨
      (determine_state p e s).ice.state = ICE_OFF) ∧
    (determine_state p e s).ice.state ≠ ICE_STARTING ∧
    (determine_state p e s).ice.state ≠ ICE_RUNNING ∧
    (∀ cv, e.channel = some cv → system_should_be_off p e (cv % UINT16_RANGE) = false →
      (determine_state p e s).ice.state = ICE_START_DELAY) := by
  have hlinger : ∀ cv, e.channel = some cv →
      system_should_be_off p e (cv % UINT16_RANGE) = false →
      (determine_state p e s).ice.state = ICE_START_DELAY := by
    intro cv hc hoff
    rw [determine_state_some p e s cv hc, clear_starter_timer_state,
      force_off_of_not_off p e _ s hoff]
    have hlt : p.resarts_allowed < (s.starting_attempts : Int) := hex
    simp only [switch_on_state, hs, case_start_delay]
    split_ifs <;> first | exact hs | (exfalso; tauto)
  have hor : (determine_state p e s).ice.state = ICE_START_DELAY ∨
      (determine_state p e s).ice.state = ICE_OFF := by
    cases hc : e.channel with
    | none => right; rw [determine_state_none p e s hc]
    | some cv =>
      cases hoff : system_should_be_off p e (cv % UINT16_RANGE) with
      | true => right; exact tick_forced_off p e s cv hc hoff
      | false => left; exact hlinger cv hc hoff
  refine ⟨hor, ?_, ?_, hlinger⟩
  · rcases hor with h | h <;> rw [h] <;> decide
  · rcases hor with h | h <;> rw [h] <;> decide

/-- C6 at a concrete input: no restarts allowed, one attempt made, switch high,
armed, no start delay: the tick stays in `ICE_START_DELAY`. -/
theorem C6_budget_exhausted_lingers_witness :
    (determine_state { Params.defaults with resarts_allowed := 0, starter_delay := 0 }
        TickEnv.quiet
        { ICE.boot with state := ICE_START_DELAY, starting_attempts := 1 }).ice.state =
          ICE_START_DELAY :=
  (C6_budget_exhausted_lingers { Params.defaults with resarts_allowed := 0, starter_delay := 0 }
    TickEnv.quiet { ICE.boot with state := ICE_START_DELAY, starting_attempts := 1 }
    rfl (by decide) (by decide)).2.2.2 1800 rfl (by decide)

/-- C7, the claim as stated fails: the counter is a `uint8_t`, so the first tick
in `ICE_STARTING` takes a counter of 255 to 0. The tick begins, dispatches and
ends in `ICE_STARTING`; it neither enters nor evaluates `ICE_OFF`. -/
theorem C7_counter_wraps_in_starting :
    ({ ICE.boot with state := ICE_STARTING, starting_attempts := 255 } : ICE).starting_attempts
      = 255 ∧
    evaluated_state Params.defaults TickEnv.quiet
      { ICE.boot with state := ICE_STARTING, starting_attempts := 255 } = some ICE_STARTING ∧
    (determine_state Params.defaults TickEnv.quiet
      { ICE.boot with state := ICE_STARTING, starting_attempts := 255 }).ice.starting_attempts
      = 0 ∧
    (determine_state Params.defaults TickEnv.quiet
      { ICE.boot with state := ICE_STARTING, starting_attempts := 255 }).ice.state
      = ICE_STARTING := by
  refine ⟨rfl, by decide, ?_, ?_⟩
  · rw [tick_attempts]
    decide
  rw [determine_state_some _ _ _ 1800 rfl, clear_starter_timer_state]
  norm_num [switch_on_state, force_off, system_should_be_off, switch_position_off,
    arming_OK_to_ign, arming_OK_to_start_or_run, case_starting, starting_entry, current_rpm,
    sub32, TickEnv.quiet, ICE.boot, Params.defaults, UINT32_RANGE, UINT16_RANGE, UINT8_RANGE]

/-- C7, amended: across one `determine_state` tick the attempt counter is
unchanged, or incremented by one modulo 256 (it is a `uint8_t`: 255 wraps to
0), or set to zero. It is incremented only when the tick evaluates
`ICE_STARTING` with the starter-run timer unset, and it is set to zero by
assignment only when the tick evaluates `ICE_OFF`; below 255 the increment is
exactly one, so a counter that was below 255 and not zero becomes zero only in
a tick that evaluates `ICE_OFF`. `engine_control`, `throttle_override`,
`brake_override` and the gear command leave the counter as it was. -/
theorem C7_attempt_counter (p : Params) (e : TickEnv) (s : ICE) :
    ((determine_state p e s).ice.starting_attempts = s.starting_attempts ∨
      ((determine_state p e s).ice.starting_attempts =
          (s.starting_attempts + 1) % UINT8_RANGE ∧
        evaluated_state p e s = some ICE_STARTING ∧ s.starter_start_time_ms = 0) ∨
      ((determine_state p e s).ice.starting_attempts = 0 ∧
        evaluated_state p e s = some ICE_OFF)) ∧
    ((determine_state p e s).ice.starting_attempts = s.starting_attempts + 1 →
      evaluated_state p e s = some ICE_STARTING ∧ s.starter_start_time_ms = 0) ∧
    (s.starting_attempts < 255 → s.starting_attempts ≠ 0 →
      (determine_state p e s).ice.starting_attempts = 0 →
      evaluated_state p e s = some ICE_OFF) ∧
    (∀ (ce : ControlEnv) (a b c : Rat),
      (engine_control ce s a b c).ice.starting_attempts = s.starting_attempts) ∧
    (∀ (te : ThrottleEnv) (pct : Int),
      (throttle_override p te s pct).ice.starting_attempts = s.starting_attempts) ∧
    (∀ pct : Rat, (brake_override p s pct).ice.starting_attempts = s.starting_attempts) ∧
    (∀ (g : GearCodes) (gearState pwm_value : Nat),
      (handle_set_ice_transmission_state g s gearState pwm_value).ice.starting_attempts =
        s.starting_attempts) := by
  have hk := tick_attempts p e s
  refine ⟨?_, ?_, ?_, fun ce a b c => engine_control_attempts ce s a b c,
    fun te pct => (throttle_override_attempts p te s pct).1,
    fun pct => by rw [brake_override_ice], fun g a b => (gear_command_attempts g s a b).1⟩
  · cases hev : evaluated_state p e s with
    | none => rw [hev] at hk; exact Or.inl hk
    | some st =>
      rw [hev] at hk
      cases st with
      | ICE_OFF => exact Or.inr (Or.inr ⟨hk, rfl⟩)
      | ICE_START_HEIGHT_DELAY => exact Or.inl hk
      | ICE_START_DELAY => exact Or.inl hk
      | ICE_RUNNING => exact Or.inl hk
      | ICE_STARTING =>
        simp only at hk
        by_cases ht : s.starter_start_time_ms = 0
        · rw [if_pos ht] at hk
          exact Or.inr (Or.inl ⟨hk, rfl, ht⟩)
        · rw [if_neg ht] at hk
          exact Or.inl hk
  · intro hinc
    cases hev : evaluated_state p e s with
    | none => rw [hev] at hk; simp only at hk; omega
    | some st =>
      rw [hev] at hk
      cases st with
      | ICE_OFF => simp only at hk; omega
      | ICE_START_HEIGHT_DELAY => simp only at hk; omega
      | ICE_START_DELAY => simp only at hk; omega
      | ICE_RUNNING => simp only at hk; omega
      | ICE_STARTING =>
        simp only at hk
        by_cases ht : s.starter_start_time_ms = 0
        · exact ⟨rfl, ht⟩
        · rw [if_neg ht] at hk
          omega
  · intro hlt hne hzero
    cases hev : evaluated_state p e s with
    | none => rw [hev] at hk; simp only at hk; omega
    | some st =>
      rw [hev] at hk
      cases st with
      | ICE_OFF => rfl
      | ICE_START_HEIGHT_DELAY => simp only at hk; omega
      | ICE_START_DELAY => simp only at hk; omega
      | ICE_RUNNING => simp only at hk; omega
      | ICE_STARTING =>
        simp only at hk
        by_cases ht : s.starter_start_time_ms = 0
        · rw [if_pos ht] at hk
          simp only [UINT8_RANGE] at hk
          omega
        · rw [if_neg ht] at hk
          omega

/-- C8: if the state after a `determine_state` tick is `ICE_STARTING`, the
state before it was `ICE_START_DELAY`, `ICE_START_HEIGHT_DELAY` or
`ICE_STARTING`. A tick that begins in `ICE_OFF` ends in `ICE_OFF` or
`ICE_START_DELAY`, and a tick that begins in `ICE_RUNNING` does not end in
`ICE_STARTING`. Of the other operations, `throttle_override`, `brake_override`
and the gear command keep the state, while `engine_control` with a positive
start value, no height delay and a switch that does not reject it puts every
state but `ICE_RUNNING` (`ICE_OFF` included) into `ICE_STARTING`. -/
theorem C8_starting_entered_from (p : Params) (e : TickEnv) (s : ICE) :
    ((determine_state p e s).ice.state = ICE_STARTING →
      s.state = ICE_START_DELAY ∨ s.state = ICE_START_HEIGHT_DELAY ∨
        s.state = ICE_STARTING) ∧
    (s.state = ICE_OFF →
      (determine_state p e s).ice.state = ICE_OFF ∨
        (determine_state p e s).ice.state = ICE_START_DELAY) ∧
    (s.state = ICE_RUNNING → (determine_state p e s).ice.state ≠ ICE_STARTING) ∧
    (∀ (te : ThrottleEnv) (pct : Int), (throttle_override p te s pct).ice.state = s.state) ∧
    (∀ pct : Rat, (brake_override p s pct).ice.state = s.state) ∧
    (∀ (g : GearCodes) (gearState pwm_value : Nat),
      (handle_set_ice_transmission_state g s gearState pwm_value).ice.state = s.state) ∧
    (∀ (ce : ControlEnv) (start_control cold_start height_delay : Rat),
      start_control > 0 → height_delay ≤ 0 → s.state ≠ ICE_RUNNING →
      (ce.channel = none ∨ ∃ cv, ce.channel = some cv ∧ 1300 < cv) →
      (engine_control ce s start_control cold_start height_delay).ice.state =
        ICE_STARTING) := by
  have hrun : s.state = ICE_RUNNING → (determine_state p e s).ice.state ≠ ICE_STARTING := by
    intro hs
    rcases tick_from_running p e s hs with h | h | h <;> rw [h] <;> decide
  have hoffc : s.state = ICE_OFF → (determine_state p e s).ice.state ≠ ICE_STARTING := by
    intro hs
    rcases tick_from_off p e s hs with h | h <;> rw [h] <;> decide
  refine ⟨?_, tick_from_off p e s, hrun,
    fun te pct => (throttle_override_attempts p te s pct).2,
    fun pct => by rw [brake_override_ice],
    fun g a b => (gear_command_attempts g s a b).2, ?_⟩
  · intro hst
    cases hs : s.state with
    | ICE_OFF => exact absurd hst (hoffc hs)
    | ICE_RUNNING => exact absurd hst (hrun hs)
    | ICE_START_DELAY => exact Or.inl rfl
    | ICE_START_HEIGHT_DELAY => exact Or.inr (Or.inl rfl)
    | ICE_STARTING => exact Or.inr (Or.inr rfl)
  · intro ce sc cold hd hsc hhd hnr hch
    have h1 : ¬ sc ≤ 0 := not_le.mpr hsc
    have h2 : ¬ hd > 0 := not_lt.mpr hhd
    have h3 : ¬ (ce.channel.isSome ∧ ce.channel.getD 0 ≤ 1300) := by
      rcases hch with hn | ⟨cv, hcv, hgt⟩
      · simp [hn]
      · rw [hcv]
        simp only [Option.getD_some]
        omega
    simp [engine_control, h1, h2, h3, hnr]

/-- C9: for every engine state, switch reading and channel configuration, and
every `cold_start` and `height_delay`, `engine_control` with
`start_control <= 0` sets the state to `ICE_OFF`, changes nothing else and
returns true. -/
theorem C9_engine_control_stop (ce : ControlEnv) (s : ICE)
    (start_control cold_start height_delay : Rat) (h : start_control ≤ 0) :
    (engine_control ce s start_control cold_start height_delay).ret = true ∧
    (engine_control ce s start_control cold_start height_delay).ice.state = ICE_OFF ∧
    (engine_control ce s start_control cold_start height_delay).ice =
      { s with state := ICE_OFF } := by
  simp [engine_control, h]

/-- C9 at a concrete input: a stop command to a running engine whose switch is
high. -/
theorem C9_engine_control_stop_witness :
    (engine_control { channel := some 1800, millis := 7000 }
        { ICE.boot with state := ICE_RUNNING } 0 0 5).ret = true ∧
    (engine_control { channel := some 1800, millis := 7000 }
        { ICE.boot with state := ICE_RUNNING } 0 0 5).ice.state = ICE_OFF :=
  ⟨(C9_engine_control_stop { channel := some 1800, millis := 7000 }
      { ICE.boot with state := ICE_RUNNING } 0 0 5 (le_refl 0)).1,
   (C9_engine_control_stop { channel := some 1800, millis := 7000 }
      { ICE.boot with state := ICE_RUNNING } 0 0 5 (le_refl 0)).2.1⟩

/-- C10: for every engine state and every `height_delay`, `engine_control` with
`start_control > 0`, while a start-input channel is configured and reads 1300
or less, returns false and leaves the whole controller as it was (engine
state, height trigger fields, timers and attempt counter). -/
theorem C10_engine_control_rejected (ce : ControlEnv) (s : ICE)
    (start_control cold_start height_delay : Rat) (cv : Nat)
    (hpos : start_control > 0) (hc : ce.channel = some cv) (hle : cv ≤ 1300) :
    (engine_control ce s start_control cold_start height_delay).ret = false ∧
    (engine_control ce s start_control cold_start height_delay).ice = s := by
  have h1 : ¬ start_control ≤ 0 := not_le.mpr hpos
  simp [engine_control, h1, hc, hle]

/-- C10 at a concrete input: a height-delayed start request while the switch
reads 1000 and the controller waits in `ICE_START_DELAY`. -/
theorem C10_engine_control_rejected_witness :
    (engine_control { channel := some 1000, millis := 7000 }
        { ICE.boot with state := ICE_START_DELAY, starting_attempts := 2 } 1 0 5).ret = false ∧
    (engine_control { channel := some 1000, millis := 7000 }
        { ICE.boot with state := ICE_START_DELAY, starting_attempts := 2 } 1 0 5).ice =
      { ICE.boot with state := ICE_START_DELAY, starting_attempts := 2 } :=
  C10_engine_control_rejected { channel := some 1000, millis := 7000 }
    { ICE.boot with state := ICE_START_DELAY, starting_attempts := 2 } 1 0 5 1000
    (by norm_num) rfl (by decide)

/-- C11: `engine_control` with `start_control > 0` that the switch does not
reject (no channel configured, or the channel reads above 1300) returns true.
With `height_delay > 0` the state becomes `ICE_START_HEIGHT_DELAY`, the
pending flag is set, `initial_height` is 0 and `height_required` is
`height_delay`. With `height_delay <= 0` the state becomes `ICE_STARTING` when
it was not `ICE_RUNNING` and stays `ICE_RUNNING` otherwise, whatever the
attempt counter and the last starter run are (the function reads neither, nor
any parameter). -/
theorem C11_engine_control_start (ce : ControlEnv) (s : ICE)
    (start_control cold_start height_delay : Rat)
    (hpos : start_control > 0)
    (hsw : ce.channel = none ∨ ∃ cv, ce.channel = some cv ∧ 1300 < cv) :
    (engine_control ce s start_control cold_start height_delay).ret = true ∧
    (height_delay > 0 →
      (engine_control ce s start_control cold_start height_delay).ice =
        { s with
          height_pending := true, initial_height := 0, height_required := height_delay,
          state := ICE_START_HEIGHT_DELAY }) ∧
    (height_delay ≤ 0 → s.state ≠ ICE_RUNNING →
      (engine_control ce s start_control cold_start height_delay).ice =
        { s with state := ICE_STARTING }) ∧
    (height_delay ≤ 0 → s.state = ICE_RUNNING →
      (engine_control ce s start_control cold_start height_delay).ice = s) := by
  have h1 : ¬ start_control ≤ 0 := not_le.mpr hpos
  have h3 : ¬ (ce.channel.isSome ∧ ce.channel.getD 0 ≤ 1300) := by
    rcases hsw with hn | ⟨cv, hcv, hgt⟩
    · simp [hn]
    · rw [hcv]
      simp only [Option.getD_some]
      omega
  refine ⟨?_, ?_, ?_, ?_⟩
  · simp only [engine_control, if_neg h1, if_neg h3]
    split_ifs <;> rfl
  · intro hd
    simp only [engine_control, if_neg h1, if_neg h3, if_pos hd]
  · intro hd hs
    have h2 : ¬ height_delay > 0 := not_lt.mpr hd
    simp only [engine_control, if_neg h1, if_neg h3, if_neg h2]
    rw [if_pos hs]
  · intro hd hs
    have h2 : ¬ height_delay > 0 := not_lt.mpr hd
    have h4 : ¬ s.state ≠ ICE_RUNNING := fun h => h hs
    simp only [engine_control, if_neg h1, if_neg h3, if_neg h2]
    rw [if_neg h4]

/-- C11 at a concrete input: a start command with a height delay of 5 while
the switch reads 1800, to a controller that waits in `ICE_START_DELAY` with
two attempts made. -/
theorem C11_engine_control_start_witness :
    (engine_control { channel := some 1800, millis := 7000 }
        { ICE.boot with state := ICE_START_DELAY, starting_attempts := 2 } 1 0 5).ice =
      { ICE.boot with
        state := ICE_START_HEIGHT_DELAY, starting_attempts := 2, height_pending := true,
        initial_height := 0, height_required := 5 } :=
  (C11_engine_control_start { channel := some 1800, millis := 7000 }
    { ICE.boot with state := ICE_START_DELAY, starting_attempts := 2 } 1 0 5
    (by norm_num) (Or.inr ⟨1800, rfl, by decide⟩)).2.1 (by norm_num)

/-- C12: with the enumerators of `MAV_ICE_TRANSMISSION_GEAR_STATE` given
pairwise different values below 256, `handle_set_ice_transmission_state` maps
the gear code to a PWM by a fixed table: Park 1100, Reverse and Reverse-1 1300,
Neutral 1500, Forward and Forward-1 1700, Forward-2 1900, and the explicit-PWM
code the PWM of the command. For each of these codes it returns true, stores
the PWM, stores the code as the gear state and raises the force-send flag,
touching nothing else. For every other code it returns false and leaves the
controller, so the gear state, the gear PWM and the force-send flag, as it
was. -/
theorem C12_gear_command (g : GearCodes) (hv : g.valid) (s : ICE) (pwm_value : Nat)
    (hp : pwm_value < UINT16_RANGE) :
    (∀ cp ∈ [(g.PARK, 1100), (g.REVERSE, 1300), (g.REVERSE_1, 1300), (g.NEUTRAL, 1500),
        (g.FORWARD, 1700), (g.FORWARD_1, 1700), (g.FORWARD_2, 1900),
        (g.PWM_VALUE, pwm_value)],
      (handle_set_ice_transmission_state g s cp.1 pwm_value).ret = true ∧
      (handle_set_ice_transmission_state g s cp.1 pwm_value).ice =
        { s with gear_pwm := cp.2, gear_state := cp.1, force_send_status := true }) ∧
    (∀ c, c < UINT8_RANGE → c ∉ g.labels →
      (handle_set_ice_transmission_state g s c pwm_value).ret = false ∧
      (handle_set_ice_transmission_state g s c pwm_value).ice = s) := by
  have hlt := hv.2
  simp only [GearCodes.labels, List.mem_cons, List.mem_singleton, List.not_mem_nil,
    or_false, forall_eq_or_imp, forall_eq] at hlt
  obtain ⟨h1, h2, h3, h4, h5, h6, h7, h8⟩ := hlt
  obtain ⟨t1, t2, t3, t4, t5, t6, t7, t8⟩ :=
    gear_pwm_for_labels g hv (pwm_value % UINT16_RANGE)
  constructor
  · intro cp hmem
    simp only [List.mem_cons, List.mem_singleton, List.not_mem_nil, or_false] at hmem
    rcases hmem with h | h | h | h | h | h | h | h <;> subst h
    · have := gear_command_of_some g s _ pwm_value _ t1
      rwa [Nat.mod_eq_of_lt h1] at this
    · have := gear_command_of_some g s _ pwm_value _ t2
      rwa [Nat.mod_eq_of_lt h2] at this
    · have := gear_command_of_some g s _ pwm_value _ t3
      rwa [Nat.mod_eq_of_lt h3] at this
    · have := gear_command_of_some g s _ pwm_value _ t4
      rwa [Nat.mod_eq_of_lt h4] at this
    · have := gear_command_of_some g s _ pwm_value _ t5
      rwa [Nat.mod_eq_of_lt h5] at this
    · have := gear_command_of_some g s _ pwm_value _ t6
      rwa [Nat.mod_eq_of_lt h6] at this
    · have := gear_command_of_some g s _ pwm_value _ t7
      rwa [Nat.mod_eq_of_lt h7] at this
    · have := gear_command_of_some g s _ pwm_value _ t8
      rwa [Nat.mod_eq_of_lt h8, Nat.mod_eq_of_lt hp] at this
  · intro c hc hnot
    have hn := gear_pwm_for_none g c (pwm_value % UINT16_RANGE) hnot
    simp [handle_set_ice_transmission_state, Nat.mod_eq_of_lt hc, hn]

/-- C12 at a concrete input: with the enumerators numbered 0 to 8, the Neutral
code (4) gives PWM 1500 whatever PWM the command carries. -/
theorem C12_gear_command_witness :
    (handle_set_ice_transmission_state GearCodes.sample ICE.boot 4 1234).ret = true ∧
    (handle_set_ice_transmission_state GearCodes.sample ICE.boot 4 1234).ice =
      { ICE.boot with gear_pwm := 1500, gear_state := 4, force_send_status := true } :=
  (C12_gear_command GearCodes.sample (by decide) ICE.boot 1234 (by decide)).1
    (GearCodes.sample.NEUTRAL, 1500) (by simp)

/-- C13: for a tick that begins in `ICE_START_HEIGHT_DELAY` with the channel
configured, the system not forced off and the relative position available
(height `h = -z`, exact arithmetic): if the pending flag is set or the vehicle
is disarmed, the state stays `ICE_START_HEIGHT_DELAY`, `initial_height` becomes
`h` and the pending flag is cleared; otherwise the state becomes
`ICE_STARTING` if and only if `h >= initial_height + height_required`, and
stays `ICE_START_HEIGHT_DELAY` otherwise. Hence, after `engine_control` has
armed a delta of 5, a tick at height 0 followed by a tick of the armed vehicle
at height 5 reaches `ICE_STARTING`; and a run of any number of ticks on which
the height stays below `initial_height + height_required` keeps the state
`ICE_START_HEIGHT_DELAY`. -/
theorem C13_height_delayed_start (p : Params) :
    (∀ (e : TickEnv) (s : ICE) (cv : Nat) (z : Rat),
      e.channel = some cv → system_should_be_off p e (cv % UINT16_RANGE) = false →
      s.state = ICE_START_HEIGHT_DELAY → e.position = some z →
      ((s.height_pending = true ∨ e.soft_armed = false) →
        (determine_state p e s).ice.state = ICE_START_HEIGHT_DELAY ∧
        (determine_state p e s).ice.initial_height = -z ∧
        (determine_state p e s).ice.height_pending = false) ∧
      (s.height_pending = false → e.soft_armed = true →
        ((determine_state p e s).ice.state = ICE_STARTING ↔
          -z ≥ s.initial_height + s.height_required) ∧
        (¬ (-z ≥ s.initial_height + s.height_required) →
          (determine_state p e s).ice.state = ICE_START_HEIGHT_DELAY))) ∧
    (∀ (ce : ControlEnv) (s0 : ICE) (e1 e2 : TickEnv) (cv1 cv2 : Nat),
      (ce.channel = none ∨ ∃ cv, ce.channel = some cv ∧ 1300 < cv) →
      e1.channel = some cv1 → system_should_be_off p e1 (cv1 % UINT16_RANGE) = false →
      e1.position = some 0 →
      e2.channel = some cv2 → system_should_be_off p e2 (cv2 % UINT16_RANGE) = false →
      e2.position = some (-5) → e2.soft_armed = true →
      (run_ticks p [e1, e2] (engine_control ce s0 1 0 5).ice).state = ICE_STARTING) ∧
    (∀ (es : List TickEnv) (s : ICE), s.state = ICE_START_HEIGHT_DELAY →
      stays_below p es s = true → (run_ticks p es s).state = ICE_START_HEIGHT_DELAY) := by
  refine ⟨?_, ?_, fun es s hs hb => run_ticks_stays_below p es s hs hb⟩
  · intro e s cv z hc hoff hs hp
    constructor
    · intro hl
      obtain ⟨a, b, c, _⟩ := tick_height_latch p e s cv z hc hoff hs hp hl
      exact ⟨a, b, c⟩
    · intro hpend harm
      have h := (tick_height_compare p e s cv z hc hoff hs hp hpend harm).1
      by_cases hge : -z ≥ s.initial_height + s.height_required
      · rw [if_pos hge] at h
        exact ⟨⟨fun _ => hge, fun _ => h⟩, fun hn => absurd hge hn⟩
      · rw [if_neg hge] at h
        refine ⟨⟨fun hst => ?_, fun hg => absurd hg hge⟩, fun _ => h⟩
        rw [h] at hst
        cases hst
  · intro ce s0 e1 e2 cv1 cv2 hsw hc1 hoff1 hp1 hc2 hoff2 hp2 harm2
    have hctl := engine_control_arm ce s0 1 0 5 (by norm_num) hsw (by norm_num)
    rw [hctl]
    simp only [run_ticks]
    obtain ⟨a1, a2, a3, a4⟩ := tick_height_latch p e1
      { s0 with
        height_pending := true, initial_height := 0, height_required := 5,
        state := ICE_START_HEIGHT_DELAY } cv1 0 hc1 hoff1 rfl hp1 (Or.inl rfl)
    obtain ⟨b1, _, _, _⟩ := tick_height_compare p e2 _ cv2 (-5) hc2 hoff2 a1 hp2 a3 harm2
    rw [b1, a2, a4]
    norm_num

/-- C14, the claim as stated fails: after an accepted gear command has raised
the force-send flag, `send_status` on an active link that has no room for a
message sends nothing and clears the flag all the same; the next call, 100 ms
later on a link with room and 300 ms after the last sends, sends nothing
either, so the forced send never takes place. -/
theorem C14_forced_send_lost_without_room :
    (handle_set_ice_transmission_state GearCodes.sample ICE.just_sent 4 0).ret = true ∧
    (handle_set_ice_transmission_state GearCodes.sample ICE.just_sent 4
      0).ice.force_send_status = true ∧
    0 ∈ active_channels SendEnv.no_room ∧
    (send_status Params.defaults SendEnv.no_room
      (handle_set_ice_transmission_state GearCodes.sample ICE.just_sent 4 0).ice).ret = [] ∧
    (send_status Params.defaults SendEnv.no_room
      (handle_set_ice_transmission_state GearCodes.sample ICE.just_sent 4
        0).ice).ice.force_send_status = false ∧
    (send_status Params.defaults { SendEnv.one_link with now_ms := 5300 }
      (send_status Params.defaults SendEnv.no_room
        (handle_set_ice_transmission_state GearCodes.sample ICE.just_sent 4
          0).ice).ice).ret = [] := by
  refine ⟨by decide, by decide, by decide, by decide, by decide, by decide⟩

/-- C14, amended: an accepted gear command raises the force-send flag. The
next `send_status` sends each status kind on exactly those active channels
whose payload-space test succeeds (the gear kind only when the gear output
exists), whatever the last-send times are, so also when less than 1000 ms have
passed; it clears the flag, sets the last-send time of every kind it sent to
its clock value and leaves the others as they were. In the `send_status` call
after that, without a new command, a kind goes out on a channel exactly when,
in addition, at least 1000 ms have passed since the last send of that kind; in
particular a kind the forced call sent is not sent again less than 1000 ms
after it. The flag stays down. -/
theorem C14_forced_send_once (p : Params) (g : GearCodes) (s : ICE)
    (gearState pwm_value : Nat) (e1 e2 : SendEnv) (s1 s2 : ICE)
    (hacc : (handle_set_ice_transmission_state g s gearState pwm_value).ret = true)
    (h1 : s1 = (handle_set_ice_transmission_state g s gearState pwm_value).ice)
    (h2 : s2 = (send_status p e1 s1).ice) :
    s1.force_send_status = true ∧
    (∀ (k : StatusKind) (chan : Nat),
      sent_on (send_status p e1 s1).ret k chan ↔
        chan ∈ active_channels e1 ∧ kind_available e1 k = true ∧
          e1.payload_space chan k = true) ∧
    s2.force_send_status = false ∧
    (∀ k : StatusKind,
      (sent (send_status p e1 s1).ret k → s2.last_send_ms k = e1.now_ms % UINT32_RANGE) ∧
      (¬ sent (send_status p e1 s1).ret k → s2.last_send_ms k = s.last_send_ms k)) ∧
    (∀ (k : StatusKind) (chan : Nat),
      sent_on (send_status p e2 s2).ret k chan ↔
        chan ∈ active_channels e2 ∧ kind_available e2 k = true ∧
          sub32 (e2.now_ms % UINT32_RANGE) (s2.last_send_ms k) ≥ 1000 ∧
          e2.payload_space chan k = true) ∧
    (∀ k : StatusKind, sent (send_status p e1 s1).ret k →
      sub32 (e2.now_ms % UINT32_RANGE) (e1.now_ms % UINT32_RANGE) < 1000 →
      ¬ sent (send_status p e2 s2).ret k) ∧
    (send_status p e2 s2).ice.force_send_status = false := by
  have hflag : s1.force_send_status = true := by
    rw [h1]
    exact gear_command_raises_flag g s gearState pwm_value hacc
  have hclr : s2.force_send_status = false := by
    rw [h2]
    exact send_status_clears_flag p e1 s1
  have hkeep : ∀ k : StatusKind, s1.last_send_ms k = s.last_send_ms k := by
    intro k
    rw [h1]
    exact gear_command_keeps_stamps g s gearState pwm_value k
  have hstamp : ∀ k : StatusKind,
      (sent (send_status p e1 s1).ret k → s2.last_send_ms k = e1.now_ms % UINT32_RANGE) ∧
      (¬ sent (send_status p e1 s1).ret k → s2.last_send_ms k = s.last_send_ms k) := by
    intro k
    rw [h2, ← hkeep k]
    exact send_status_stamp p e1 s1 k
  have hlater : ∀ (k : StatusKind) (chan : Nat),
      sent_on (send_status p e2 s2).ret k chan ↔
        chan ∈ active_channels e2 ∧ kind_available e2 k = true ∧
          sub32 (e2.now_ms % UINT32_RANGE) (s2.last_send_ms k) ≥ 1000 ∧
          e2.payload_space chan k = true := by
    intro k chan
    rw [send_status_sent_on_goes, kind_goes_iff]
    simp [hclr]
  refine ⟨hflag, ?_, hclr, hstamp, hlater, ?_, send_status_clears_flag p e2 s2⟩
  · intro k chan
    rw [send_status_sent_on_goes, kind_goes_iff]
    simp [hflag]
  · intro k hsent hlt hsent2
    obtain ⟨chan, hon⟩ := (sent_iff_sent_on _ k).mp hsent2
    obtain ⟨_, _, hge, _⟩ := (hlater k chan).mp hon
    rw [(hstamp k).1 hsent] at hge
    omega

/-- C14 amended, at a concrete input: the Neutral command 200 ms after the
last sends, a forced `send_status` at 5200 ms on one link with room, and the
next `send_status` at 6000 ms: the temperature message goes out on channel 0
in the forced call and no temperature message goes out in the next one. -/
theorem C14_forced_send_once_witness :
    sent_on (send_status Params.defaults SendEnv.one_link
      (handle_set_ice_transmission_state GearCodes.sample ICE.just_sent 4 0).ice).ret
      StatusKind.temp 0 ∧
    ¬ sent (send_status Params.defaults { SendEnv.one_link with now_ms := 6000 }
      (send_status Params.defaults SendEnv.one_link
        (handle_set_ice_transmission_state GearCodes.sample ICE.just_sent 4 0).ice).ice).ret
      StatusKind.temp :=
  have h := C14_forced_send_once Params.defaults GearCodes.sample ICE.just_sent 4 0
    SendEnv.one_link { SendEnv.one_link with now_ms := 6000 }
    (handle_set_ice_transmission_state GearCodes.sample ICE.just_sent 4 0).ice
    (send_status Params.defaults SendEnv.one_link
      (handle_set_ice_transmission_state GearCodes.sample ICE.just_sent 4 0).ice).ice
    (by decide) rfl rfl
  have hs := (h.2.1 StatusKind.temp 0).mpr ⟨by decide, rfl, rfl⟩
  ⟨hs, h.2.2.2.2.2.1 StatusKind.temp ((sent_iff_sent_on _ _).mpr ⟨0, hs⟩) (by decide)⟩

/-- C15, the code at the failing input: the previous sample was taken at
1000 ms, the clock reads 1100 ms (the sample is neither the first nor stale),
the filters hold 20 and the raw sample is 30. Both filters end at 30, not at
`0.1*20 + 0.9*30 = 29`: the `uint32_t` difference `last_sample_ms - now_ms` is
4294967196, which exceeds 5000, so the sample is treated as stale. -/
theorem C15_fresh_sample_is_not_filtered :
    (ICE.sampled 1000).fuel_last_sample_ms ≠ 0 ∧
    sub32 (FuelEnv.reading 1100).now_ms (ICE.sampled 1000).fuel_last_sample_ms = 100 ∧
    sub32 (ICE.sampled 1000).fuel_last_sample_ms (FuelEnv.reading 1100).now_ms = 4294967196 ∧
    fuel_new_value Params.with_temperature (FuelEnv.reading 1100) = 30 ∧
    (update_fuel Params.with_temperature (FuelEnv.reading 1100) (ICE.sampled 1000)).ice.fuel_value
      = 30 ∧
    temperature_new_value Params.with_temperature (TemperatureEnv.reading 1100) = some 30 ∧
    (update_temperature Params.with_temperature (TemperatureEnv.reading 1100)
      (ICE.sampled 1000)).ice.temperature_value = 30 ∧
    (1 / 10 : Rat) * 20 + (9 / 10 : Rat) * 30 = 29 := by
  have hnew : temperature_new_value Params.with_temperature (TemperatureEnv.reading 1100) =
      some 30 := by
    norm_num [temperature_new_value, temperature_voltage, Params.with_temperature,
      Params.defaults, TemperatureEnv.reading]
  refine ⟨by decide, by decide, by decide, ?_, ?_, hnew, ?_, by norm_num⟩
  · norm_num [fuel_new_value, Params.with_temperature, Params.defaults, FuelEnv.reading]
  · norm_num [update_fuel, fuel_new_value, sub32, Params.with_temperature, Params.defaults,
      FuelEnv.reading, ICE.sampled, ICE.boot, UINT32_RANGE]
  · simp only [update_temperature, hnew]
    norm_num [sub32, Params.with_temperature, Params.defaults, TemperatureEnv.reading,
      ICE.sampled, ICE.boot, UINT32_RANGE]

/-- C16, the code at the failing input: the previous sample was taken at
1000 ms and the clock reads 4294967000 ms, far more than 5000 ms later; the
filters hold 20 and the raw sample is 30. Both filters end at
`0.1*20 + 0.9*30 = 29`, not at the raw sample 30: the `uint32_t` difference
`last_sample_ms - now_ms` is 1296, which does not exceed 5000. The clock value
is recorded as the last sample time. -/
theorem C16_stale_sample_is_filtered :
    (ICE.sampled 1000).fuel_last_sample_ms ≠ 0 ∧
    sub32 (FuelEnv.reading 4294967000).now_ms (ICE.sampled 1000).fuel_last_sample_ms
      = 4294966000 ∧
    sub32 (ICE.sampled 1000).fuel_last_sample_ms (FuelEnv.reading 4294967000).now_ms = 1296 ∧
    fuel_new_value Params.with_temperature (FuelEnv.reading 4294967000) = 30 ∧
    (update_fuel Params.with_temperature (FuelEnv.reading 4294967000)
      (ICE.sampled 1000)).ice.fuel_value = 29 ∧
    (update_fuel Params.with_temperature (FuelEnv.reading 4294967000)
      (ICE.sampled 1000)).ice.fuel_last_sample_ms = 4294967000 ∧
    temperature_new_value Params.with_temperature (TemperatureEnv.reading 4294967000) = some 30 ∧
    (update_temperature Params.with_temperature (TemperatureEnv.reading 4294967000)
      (ICE.sampled 1000)).ice.temperature_value = 29 ∧
    (update_temperature Params.with_temperature (TemperatureEnv.reading 4294967000)
      (ICE.sampled 1000)).ice.temperature_last_sample_ms = 4294967000 := by
  have hnew : temperature_new_value Params.with_temperature (TemperatureEnv.reading 4294967000) =
      some 30 := by
    norm_num [temperature_new_value, temperature_voltage, Params.with_temperature,
      Params.defaults, TemperatureEnv.reading]
  refine ⟨by decide, by decide, by decide, ?_, ?_, ?_, hnew, ?_, ?_⟩
  · norm_num [fuel_new_value, Params.with_temperature, Params.defaults, FuelEnv.reading]
  · norm_num [update_fuel, fuel_new_value, sub32, Params.with_temperature, Params.defaults,
      FuelEnv.reading, ICE.sampled, ICE.boot, UINT32_RANGE]
  · norm_num [update_fuel, fuel_new_value, sub32, Params.with_temperature, Params.defaults,
      FuelEnv.reading, ICE.sampled, ICE.boot, UINT32_RANGE]
  · simp only [update_temperature, hnew]
    norm_num [sub32, Params.with_temperature, Params.defaults, TemperatureEnv.reading,
      ICE.sampled, ICE.boot, UINT32_RANGE]
  · simp only [update_temperature, hnew]
    norm_num [sub32, Params.with_temperature, Params.defaults, TemperatureEnv.reading,
      ICE.sampled, ICE.boot, UINT32_RANGE]

/-- C17, the claim as stated fails at `idle_percent = 100`: with the module
enabled, the state `ICE_RUNNING`, the throttle output at 50 and no temperature
input, `throttle_override` returns false and leaves the percentage as it
was. -/
theorem C17_idle_floor_of_100_is_ignored :
    ({ Params.defaults with idle_percent := 100 } : Params).enable ≠ 0 ∧
    ({ ICE.boot with state := ICE_RUNNING } : ICE).state = ICE_RUNNING ∧
    ThrottleEnv.half.throttle_scaled <
      ({ Params.defaults with idle_percent := 100 } : Params).idle_percent ∧
    (throttle_override { Params.defaults with idle_percent := 100 } ThrottleEnv.half
      { ICE.boot with state := ICE_RUNNING } 50).ret = (false, 50) := by
  refine ⟨by decide, rfl, by decide, ?_⟩
  rw [throttle_override_ret _ _ _ _ (by decide) (by decide)]
  decide

/-- C17, amended: for every enabled controller in state `ICE_RUNNING` with an
idle floor `idle_percent` from 1 to 99 inclusive and a throttle output below
that floor, `throttle_override` returns true and sets the percentage to
`idle_percent`, whatever the temperature condition and the percentage passed
in are. -/
theorem C17_idle_floor (p : Params) (e : ThrottleEnv) (s : ICE) (pct : Int)
    (hen : p.enable ≠ 0) (hs : s.state = ICE_RUNNING)
    (h1 : 1 ≤ p.idle_percent) (h99 : p.idle_percent ≤ 99)
    (hlow : e.throttle_scaled < p.idle_percent) :
    (throttle_override p e s pct).ret = (true, p.idle_percent) ∧
    (throttle_override p e s pct).ice = s := by
  have hcond : s.state = ICE_RUNNING ∧ p.idle_percent > 0 ∧ p.idle_percent < 100 ∧
      p.idle_percent > e.throttle_scaled := ⟨hs, by omega, by omega, hlow⟩
  have hconv : to_int8 (p.idle_percent % 256) = p.idle_percent := by
    unfold to_int8
    omega
  simp only [throttle_override, if_neg hen, if_pos hcond, hconv, and_self]

/-- C17 amended, at a concrete input: an idle floor of 99 with the throttle
output at 50. -/
theorem C17_idle_floor_witness :
    (throttle_override { Params.defaults with idle_percent := 99 } ThrottleEnv.half
      { ICE.boot with state := ICE_RUNNING } 50).ret = (true, 99) :=
  (C17_idle_floor { Params.defaults with idle_percent := 99 } ThrottleEnv.half
    { ICE.boot with state := ICE_RUNNING } 50 (by decide) rfl (by decide) (by decide)
    (by decide)).1

/-- C18: for every enabled controller in state `ICE_STARTING` or
`ICE_START_DELAY`, every input percentage and every temperature condition
(the theorem assumes nothing about the temperature members, the temperature
parameters or the clock), `throttle_override` returns true and sets the
percentage to `start_percent`. -/
theorem C18_start_throttle (p : Params) (e : ThrottleEnv) (s : ICE) (pct : Int)
    (hen : p.enable ≠ 0)
    (hs : s.state = ICE_STARTING ∨ s.state = ICE_START_DELAY) :
    (throttle_override p e s pct).ret = (true, p.start_percent) := by
  have hidle : ¬ (s.state = ICE_RUNNING ∧ p.idle_percent > 0 ∧ p.idle_percent < 100 ∧
      p.idle_percent > e.throttle_scaled) := by
    rintro ⟨hr, _⟩
    rcases hs with h | h <;> rw [h] at hr <;> cases hr
  rw [throttle_override_ret p e s pct hen hidle]
  simp only [throttle_choice, if_pos hs]

/-- C18 at a concrete input: defaults (`start_percent` 5), state
`ICE_START_DELAY`, input percentage 80. -/
theorem C18_start_throttle_witness :
    (throttle_override Params.defaults ThrottleEnv.half
      { ICE.boot with state := ICE_START_DELAY } 80).ret = (true, 5) :=
  C18_start_throttle Params.defaults ThrottleEnv.half
    { ICE.boot with state := ICE_START_DELAY } 80 (by decide) (Or.inr rfl)

/-- C19: for every enabled controller whose state is neither `ICE_STARTING`
nor `ICE_START_DELAY`, for which the idle-floor rule of `ICE_RUNNING` does not
fire, and whose temperature reading is healthy with `min < max` and
`value < min`, `throttle_override` returns true and sets the percentage to 0,
for every input percentage. -/
theorem C19_too_cold_throttle (p : Params) (e : ThrottleEnv) (s : ICE) (pct : Int)
    (hen : p.enable ≠ 0)
    (hs1 : s.state ≠ ICE_STARTING) (hs2 : s.state ≠ ICE_START_DELAY)
    (hidle : ¬ (s.state = ICE_RUNNING ∧ p.idle_percent > 0 ∧ p.idle_percent < 100 ∧
      p.idle_percent > e.throttle_scaled))
    (hh : temperature_is_healthy p s e.millis_too_cold = true)
    (hmm : p.temperature_min < p.temperature_max)
    (hcold : s.temperature_value < (p.temperature_min : Rat)) :
    (throttle_override p e s pct).ret = (true, 0) := by
  rw [throttle_override_ret p e s pct hen hidle]
  have hns : ¬ (s.state = ICE_STARTING ∨ s.state = ICE_START_DELAY) := by
    rintro (h | h)
    · exact hs1 h
    · exact hs2 h
  have hc : too_cold p s e.millis_too_cold = true := by
    simp [too_cold, hh, temperature_too_cold, hmm, hcold]
  simp only [throttle_choice, if_neg hns, hc, if_true]

/-- C19 at a concrete input: temperature input on pin 50, sampled 200 ms ago at
4 degrees with bounds 10 and 105, engine running with no idle floor. -/
theorem C19_too_cold_throttle_witness :
    (throttle_override Params.with_temperature ThrottleEnv.half
      { ICE.boot with
        state := ICE_RUNNING, temperature_value := 4, temperature_last_sample_ms := 4800 }
      80).ret = (true, 0) :=
  C19_too_cold_throttle Params.with_temperature ThrottleEnv.half
    { ICE.boot with
      state := ICE_RUNNING, temperature_value := 4, temperature_last_sample_ms := 4800 }
    80 (by decide) (by decide) (by decide) (by decide) (by decide) (by decide)
    (by norm_num [ICE.boot, Params.with_temperature, Params.defaults])

/-- C20: `throttle_override` returns false and leaves the percentage equal to
its input value when the module is disabled, for every state; and when the
module is enabled, the state is neither `ICE_STARTING` nor `ICE_START_DELAY`,
the idle-floor rule of `ICE_RUNNING` does not fire and the temperature is
neither too cold nor too hot. -/
theorem C20_no_override (p : Params) (e : ThrottleEnv) (s : ICE) (pct : Int)
    (h : p.enable = 0 ∨
      (p.enable ≠ 0 ∧ s.state ≠ ICE_STARTING ∧ s.state ≠ ICE_START_DELAY ∧
        ¬ (s.state = ICE_RUNNING ∧ p.idle_percent > 0 ∧ p.idle_percent < 100 ∧
          p.idle_percent > e.throttle_scaled) ∧
        too_cold p s e.millis_too_cold = false ∧ too_hot p s e.millis_too_hot = false)) :
    (throttle_override p e s pct).ret = (false, pct) := by
  rcases h with h0 | ⟨hen, hs1, hs2, hidle, hc, hh⟩
  · simp only [throttle_override, if_pos h0]
  · rw [throttle_override_ret p e s pct hen hidle]
    have hns : ¬ (s.state = ICE_STARTING ∨ s.state = ICE_START_DELAY) := by
      rintro (h | h)
      · exact hs1 h
      · exact hs2 h
    simp [throttle_choice, hns, hc, hh]

/-- C20 at a concrete input: the module enabled, the engine running with no
idle floor and no temperature input. -/
theorem C20_no_override_witness :
    (throttle_override Params.defaults ThrottleEnv.half
      { ICE.boot with state := ICE_RUNNING } 80).ret = (false, 80) :=
  C20_no_override Params.defaults ThrottleEnv.half { ICE.boot with state := ICE_RUNNING } 80
    (Or.inr ⟨by decide, by decide, by decide, by decide, by decide, by decide⟩)

/-- C21, the code at the failing input: a tick that begins in `ICE_STARTING`
with the starter-run timer armed at 1000 ms while no start channel is
configured ends in `ICE_OFF` with the timer still at 1000: the early `return`
skips the statement that clears it. When a start command then puts the
controller back into `ICE_STARTING`, the next tick (clock at 5000 ms, 3 s of
starter time) is not treated as a first tick: the counter stays at 1 and the
tick ends in `ICE_RUNNING` at once. -/
theorem C21_no_channel_keeps_starter_timer :
    (determine_state Params.defaults TickEnv.no_channel ICE.cranking).ice.state = ICE_OFF ∧
    (determine_state Params.defaults TickEnv.no_channel
      ICE.cranking).ice.starter_start_time_ms = 1000 ∧
    (engine_control { channel := none, millis := 4000 }
      (determine_state Params.defaults TickEnv.no_channel ICE.cranking).ice 1 0 0).ice.state
        = ICE_STARTING ∧
    (determine_state Params.defaults TickEnv.quiet
      (engine_control { channel := none, millis := 4000 }
        (determine_state Params.defaults TickEnv.no_channel ICE.cranking).ice
        1 0 0).ice).ice.starting_attempts = 1 ∧
    (determine_state Params.defaults TickEnv.quiet
      (engine_control { channel := none, millis := 4000 }
        (determine_state Params.defaults TickEnv.no_channel ICE.cranking).ice
        1 0 0).ice).ice.state = ICE_RUNNING := by
  have h1 : (determine_state Params.defaults TickEnv.no_channel ICE.cranking).ice =
      { ICE.cranking with state := ICE_OFF } :=
    determine_state_none _ _ _ rfl
  have h2 : (engine_control { channel := none, millis := 4000 }
      { ICE.cranking with state := ICE_OFF } 1 0 0).ice = ICE.cranking := by
    norm_num [engine_control, ICE.cranking]
    rw [if_neg (show ¬ ICE_OFF = ICE_RUNNING by decide)]
  rw [h1, h2]
  refine ⟨rfl, rfl, rfl, ?_, ?_⟩
  · rw [tick_attempts]
    decide
  · rw [determine_state_some _ _ _ 1800 rfl, clear_starter_timer_state]
    norm_num [switch_on_state, force_off, system_should_be_off, switch_position_off,
      arming_OK_to_ign, arming_OK_to_start_or_run, case_starting, starting_entry, current_rpm,
      sub32, TickEnv.quiet, ICE.cranking, ICE.boot, Params.defaults, UINT32_RANGE,
      UINT16_RANGE, UINT8_RANGE]

/-- C22: `too_hot()` and `too_cold()` are both false whenever the reading has
never been sampled (`last_sample_ms == 0`), or its last sample is 1000 ms old
or older at the clock value `is_healthy()` reads, or the bounds do not satisfy
`min < max`. In the first two cases the reading is not healthy, and
`get_temperature` for a reading that is not healthy returns false and leaves
the value of the caller. When this holds at the clock reads of both tests,
`throttle_override` of an enabled controller applies neither the too-cold nor
the too-hot rule: past the idle rule it forces `start_percent` in
`ICE_STARTING` and `ICE_START_DELAY` and otherwise returns false with the
percentage unchanged. -/
theorem C22_untrusted_temperature_unused (p : Params) (s : ICE) :
    (∀ t : Nat,
      (s.temperature_last_sample_ms = 0 ∨ sub32 t s.temperature_last_sample_ms ≥ 1000 ∨
        ¬ (p.temperature_min < p.temperature_max)) →
      too_hot p s t = false ∧ too_cold p s t = false) ∧
    (∀ t : Nat,
      (s.temperature_last_sample_ms = 0 ∨ sub32 t s.temperature_last_sample_ms ≥ 1000) →
      temperature_is_healthy p s t = false) ∧
    (∀ (t : Nat) (value : Rat), temperature_is_healthy p s t = false →
      get_temperature p s t value = (false, value)) ∧
    (∀ (e : ThrottleEnv) (pct : Int),
      (s.temperature_last_sample_ms = 0 ∨
        sub32 e.millis_too_cold s.temperature_last_sample_ms ≥ 1000 ∨
        ¬ (p.temperature_min < p.temperature_max)) →
      (s.temperature_last_sample_ms = 0 ∨
        sub32 e.millis_too_hot s.temperature_last_sample_ms ≥ 1000 ∨
        ¬ (p.temperature_min < p.temperature_max)) →
      p.enable ≠ 0 →
      ¬ (s.state = ICE_RUNNING ∧ p.idle_percent > 0 ∧ p.idle_percent < 100 ∧
        p.idle_percent > e.throttle_scaled) →
      (throttle_override p e s pct).ret =
        if s.state = ICE_STARTING ∨ s.state = ICE_START_DELAY then (true, p.start_percent)
        else (false, pct)) := by
  refine ⟨fun t h => not_hot_not_cold p s t h,
    fun t h => not_healthy_of_unsampled_or_stale p s t h, ?_, ?_⟩
  · intro t value hh
    simp [get_temperature, hh]
  · intro e pct hc hh hen hidle
    rw [throttle_override_ret p e s pct hen hidle]
    have h1 := (not_hot_not_cold p s e.millis_too_cold hc).2
    have h2 := (not_hot_not_cold p s e.millis_too_hot hh).1
    by_cases hst : s.state = ICE_STARTING ∨ s.state = ICE_START_DELAY
    · simp only [throttle_choice, if_pos hst]
    · simp [throttle_choice, hst, h1, h2]

/-- C23, the claim as stated fails: with the start channel at 1500 and the
vehicle armed, a tick that begins in `ICE_OFF` ends in `ICE_START_DELAY`. -/
theorem C23_mid_switch_leaves_off :
    ({ TickEnv.quiet with channel := some 1500 } : TickEnv).soft_armed = true ∧
    ICE.boot.state = ICE_OFF ∧
    (determine_state Params.defaults { TickEnv.quiet with channel := some 1500 }
      ICE.boot).ice.state = ICE_START_DELAY := by
  refine ⟨rfl, rfl, ?_⟩
  decide

/-- C23, amended: while the start channel reads between 1301 and 1699 and the
vehicle is armed, a `determine_state` tick never ends in `ICE_OFF` and starts
nothing from the switch: a tick that begins in `ICE_START_DELAY` leaves the
state as it was, a tick that begins in `ICE_OFF` ends in `ICE_START_DELAY`, a
tick that begins in `ICE_RUNNING` ends in `ICE_RUNNING` or `ICE_START_DELAY`,
and a tick ends in `ICE_STARTING` only if it began in `ICE_STARTING` or in
`ICE_START_HEIGHT_DELAY`. -/
theorem C23_mid_switch (p : Params) (e : TickEnv) (s : ICE) (cv : Nat)
    (hc : e.channel = some cv) (hlo : 1301 ≤ cv) (hhi : cv ≤ 1699)
    (harm : e.soft_armed = true) :
    (determine_state p e s).ice.state ≠ ICE_OFF ∧
    (s.state = ICE_START_DELAY → (determine_state p e s).ice.state = ICE_START_DELAY) ∧
    (s.state = ICE_OFF → (determine_state p e s).ice.state = ICE_START_DELAY) ∧
    (s.state = ICE_RUNNING →
      (determine_state p e s).ice.state = ICE_RUNNING ∨
        (determine_state p e s).ice.state = ICE_START_DELAY) ∧
    ((determine_state p e s).ice.state = ICE_STARTING →
      s.state = ICE_STARTING ∨ s.state = ICE_START_HEIGHT_DELAY) := by
  obtain ⟨hmod, hoff, hrun, hacc, hst⟩ := mid_switch_armed p e cv hlo hhi harm
  have htick := tick_not_forced p e s cv hc hoff
  rw [hmod] at htick hoff
  have hsd : s.state = ICE_START_DELAY →
      (determine_state p e s).ice.state = ICE_START_DELAY := by
    intro hs
    rw [htick, clear_starter_timer_state]
    simp [switch_on_state, hs, case_start_delay, hst]
  have hfo : s.state = ICE_OFF → (determine_state p e s).ice.state = ICE_START_DELAY := by
    intro hs
    rw [htick, clear_starter_timer_state]
    simp [switch_on_state, hs, case_off, hoff, hacc]
  have hru : s.state = ICE_RUNNING →
      (determine_state p e s).ice.state = ICE_RUNNING ∨
        (determine_state p e s).ice.state = ICE_START_DELAY := by
    intro hs
    rw [htick, clear_starter_timer_state]
    simp only [switch_on_state, hs, case_running, hrun]
    split_ifs with h1 h2
    · simp at h1
    · exact Or.inr rfl
    · exact Or.inl rfl
  refine ⟨?_, hsd, hfo, hru, ?_⟩
  · cases hs : s.state with
    | ICE_OFF => rw [hfo hs]; decide
    | ICE_START_DELAY => rw [hsd hs]; decide
    | ICE_RUNNING => rcases hru hs with h | h <;> rw [h] <;> decide
    | ICE_START_HEIGHT_DELAY =>
      rw [htick, clear_starter_timer_state]
      simp only [switch_on_state, hs]
      rcases case_start_height_delay_state e s hs with h | h <;> rw [h] <;> decide
    | ICE_STARTING =>
      rw [htick, clear_starter_timer_state]
      simp only [switch_on_state, hs]
      rcases case_starting_state p e s hs with h | h | h <;> rw [h] <;> decide
  · intro hfin
    cases hs : s.state with
    | ICE_OFF => rw [hfo hs] at hfin; cases hfin
    | ICE_START_DELAY => rw [hsd hs] at hfin; cases hfin
    | ICE_RUNNING => rcases hru hs with h | h <;> rw [h] at hfin <;> cases hfin
    | ICE_START_HEIGHT_DELAY => exact Or.inr rfl
    | ICE_STARTING => exact Or.inl rfl

/-- C23 amended, at a concrete input: with the channel at 1500 and the vehicle
armed, a controller that waits in `ICE_START_DELAY` stays there. -/
theorem C23_mid_switch_witness :
    (determine_state Params.defaults { TickEnv.quiet with channel := some 1500 }
      { ICE.boot with state := ICE_START_DELAY }).ice.state = ICE_START_DELAY :=
  (C23_mid_switch Params.defaults { TickEnv.quiet with channel := some 1500 }
    { ICE.boot with state := ICE_START_DELAY } 1500 rfl (by decide) (by decide) rfl).2.1 rfl

/-- C24, the code at the failing input: with a power-up wait of 10 s, a tick
that begins in `ICE_START_DELAY` with the power-up timer armed at 1000 ms and
finds the switch at 1200 ends in `ICE_OFF` with the timer still at 1000. The
switch then goes high: the tick at 60000 ms enters `ICE_START_DELAY` and the
tick at 60100 ms already ends in `ICE_STARTING`, 100 ms after the entry
instead of 10 s. -/
theorem C24_power_up_timer_survives_off :
    (determine_state Params.power_up (TickEnv.switch_at 1200 2000)
      ICE.powering_up).ice.state = ICE_OFF ∧
    (determine_state Params.power_up (TickEnv.switch_at 1200 2000)
      ICE.powering_up).ice.engine_power_up_wait_ms = 1000 ∧
    (run_ticks Params.power_up [TickEnv.switch_at 1200 2000, TickEnv.switch_at 1800 60000]
      ICE.powering_up).state = ICE_START_DELAY ∧
    (run_ticks Params.power_up [TickEnv.switch_at 1200 2000, TickEnv.switch_at 1800 60000,
      TickEnv.switch_at 1800 60100] ICE.powering_up).state = ICE_STARTING := by
  have h1 : (determine_state Params.power_up (TickEnv.switch_at 1200 2000)
      ICE.powering_up).ice = { ICE.powering_up with state := ICE_OFF } := by
    rw [determine_state_some _ _ _ 1200 rfl]
    norm_num [switch_on_state, force_off, system_should_be_off, switch_position_off,
      arming_OK_to_ign, case_off, clear_starter_timer, TickEnv.switch_at, TickEnv.quiet,
      ICE.powering_up, ICE.boot, Params.power_up, Params.defaults, UINT16_RANGE]
  have h2 : (determine_state Params.power_up (TickEnv.switch_at 1800 60000)
      { ICE.powering_up with state := ICE_OFF }).ice = ICE.powering_up := by
    rw [determine_state_some _ _ _ 1800 rfl]
    norm_num [switch_on_state, force_off, system_should_be_off, switch_position_off,
      switch_position_acc, switch_position_acc_start,
      arming_OK_to_ign, case_off, clear_starter_timer, TickEnv.switch_at, TickEnv.quiet,
      ICE.powering_up, ICE.boot, Params.power_up, Params.defaults, UINT16_RANGE]
  have h3 : (determine_state Params.power_up (TickEnv.switch_at 1800 60100)
      ICE.powering_up).ice.state = ICE_STARTING := by
    rw [determine_state_some _ _ _ 1800 rfl, clear_starter_timer_state]
    norm_num [switch_on_state, force_off, system_should_be_off, switch_position_off,
      switch_position_acc_start, arming_OK_to_ign, arming_OK_to_start_or_run,
      case_start_delay, start_delay_starter, sub32, TickEnv.switch_at, TickEnv.quiet,
      ICE.powering_up, ICE.boot, Params.power_up, Params.defaults, UINT16_RANGE,
      UINT32_RANGE]
    rw [if_neg (by decide)]
  refine ⟨by rw [h1], by rw [h1]; rfl, ?_, ?_⟩
  · simp only [run_ticks, h1, h2]
    rfl
  · simp only [run_ticks, h1, h2]
    exact h3

/-- C25: for a tick that begins in `ICE_RUNNING` with the channel configured
and the system not forced off, when run permission is lost (disarmed while the
arming-required-for-start option bit is set): with `idle_percent <= 0` the tick
ends in `ICE_OFF`; with `idle_percent > 0` it does not end in `ICE_OFF`: it
ends in `ICE_START_DELAY` when the RPM-died rule fires and in `ICE_RUNNING`
otherwise. -/
theorem C25_running_without_permission (p : Params) (e : TickEnv) (s : ICE) (cv : Nat)
    (hc : e.channel = some cv)
    (hoff : system_should_be_off p e (cv % UINT16_RANGE) = false)
    (hs : s.state = ICE_RUNNING)
    (hdis : e.soft_armed = false)
    (hbit : p.options &&& AP_ICENGINE_OPTIONS_MASK_ARMING_REQUIRED_START ≠ 0) :
    (p.idle_percent ≤ 0 → (determine_state p e s).ice.state = ICE_OFF) ∧
    (p.idle_percent > 0 →
      (determine_state p e s).ice.state ≠ ICE_OFF ∧
      (determine_state p e s).ice.state =
        (if current_rpm e > 0 ∧ p.rpm_threshold_running > 0 ∧
            current_rpm e < p.rpm_threshold_running
          then ICE_START_DELAY else ICE_RUNNING)) := by
  have hperm : arming_OK_to_start_or_run p e = false := by
    simp [arming_OK_to_start_or_run, hdis, hbit]
  have htick := tick_not_forced p e s cv hc hoff
  constructor
  · intro hidle
    rw [htick, clear_starter_timer_state]
    simp [switch_on_state, hs, case_running, hperm, hidle]
  · intro hidle
    have hni : ¬ p.idle_percent ≤ 0 := not_le.mpr hidle
    have hmain : (determine_state p e s).ice.state =
        (if current_rpm e > 0 ∧ p.rpm_threshold_running > 0 ∧
            current_rpm e < p.rpm_threshold_running
          then ICE_START_DELAY else ICE_RUNNING) := by
      rw [htick, clear_starter_timer_state]
      simp only [switch_on_state, hs, case_running, hni, and_false, if_false]
      split_ifs <;> rfl
    refine ⟨?_, hmain⟩
    rw [hmain]
    split_ifs <;> decide

/-- C25 at a concrete input: arming required for starting but not for
ignition (`options = 2`), disarmed, switch high, no idle throttle: the running
engine is switched off. -/
theorem C25_running_without_permission_witness :
    (determine_state { Params.defaults with options := 2 }
      { TickEnv.quiet with soft_armed := false }
      { ICE.boot with state := ICE_RUNNING }).ice.state = ICE_OFF :=
  (C25_running_without_permission { Params.defaults with options := 2 }
    { TickEnv.quiet with soft_armed := false } { ICE.boot with state := ICE_RUNNING } 1800
    rfl (by decide) rfl rfl (by decide)).1 (by decide)

/-- C26: a tick that begins in `ICE_OFF` ends in `ICE_START_DELAY` if and only
if the start channel is configured, it reads above 1300 and ignition
permission holds; otherwise it ends in `ICE_OFF`. Whenever the channel is
configured the attempt counter is 0 after the tick. -/
theorem C26_leaving_off (p : Params) (e : TickEnv) (s : ICE) (hs : s.state = ICE_OFF) :
    ((determine_state p e s).ice.state = ICE_START_DELAY ↔
      ∃ cv, e.channel = some cv ∧ cv % UINT16_RANGE > 1300 ∧ arming_OK_to_ign p e = true) ∧
    (¬ (∃ cv, e.channel = some cv ∧ cv % UINT16_RANGE > 1300 ∧
        arming_OK_to_ign p e = true) →
      (determine_state p e s).ice.state = ICE_OFF) ∧
    (∀ cv, e.channel = some cv → (determine_state p e s).ice.starting_attempts = 0) := by
  have hiff : (determine_state p e s).ice.state = ICE_START_DELAY ↔
      ∃ cv, e.channel = some cv ∧ cv % UINT16_RANGE > 1300 ∧ arming_OK_to_ign p e = true := by
    cases hc : e.channel with
    | none =>
      rw [determine_state_none p e s hc]
      simp
    | some cv =>
      rw [determine_state_some p e s cv hc, clear_starter_timer_state]
      have h1 : (force_off p e (cv % UINT16_RANGE) s).state = ICE_OFF := by
        rcases force_off_state_cases p e (cv % UINT16_RANGE) s with h | h
        · exact h
        · rw [h, hs]
      simp only [switch_on_state, h1, case_off, Option.some.injEq, exists_eq_left']
      by_cases hgt : cv % UINT16_RANGE > 1300
      · have hle : ¬ cv % UINT16_RANGE ≤ 1300 := by omega
        cases hign : arming_OK_to_ign p e with
        | true =>
          by_cases h17 : cv % UINT16_RANGE < 1700
          · simp [system_should_be_off, switch_position_off, switch_position_acc,
              switch_position_acc_start, hign, hgt, hle, h17]
          · have : 1700 ≤ cv % UINT16_RANGE := by omega
            simp [system_should_be_off, switch_position_off, switch_position_acc,
              switch_position_acc_start, hign, hgt, hle, h17, this]
        | false =>
          simp [system_should_be_off, switch_position_off, hign, h1]
      · have hle : cv % UINT16_RANGE ≤ 1300 := by omega
        simp [system_should_be_off, switch_position_off, hgt, hle, h1]
  refine ⟨hiff, ?_, ?_⟩
  · intro hn
    rcases tick_from_off p e s hs with h | h
    · exact h
    · exact absurd (hiff.mp h) hn
  · intro cv hc
    rw [tick_attempts]
    simp only [evaluated_state, hc]
    have h1 : (force_off p e (cv % UINT16_RANGE) s).state = ICE_OFF := by
      rcases force_off_state_cases p e (cv % UINT16_RANGE) s with h | h
      · exact h
      · rw [h, hs]
    rw [h1]

/-- C26 at a concrete input: switch at 1500, armed, counter at 3: the tick
moves to `ICE_START_DELAY` and resets the counter. -/
theorem C26_leaving_off_witness :
    (determine_state Params.defaults (TickEnv.switch_at 1500 5000)
      { ICE.boot with starting_attempts := 3 }).ice.starting_attempts = 0 :=
  (C26_leaving_off Params.defaults (TickEnv.switch_at 1500 5000)
    { ICE.boot with starting_attempts := 3 } rfl).2.2 1500 rfl

/-- C28: if the state after a `determine_state` tick is `ICE_RUNNING`, the
state before it was `ICE_STARTING` or `ICE_RUNNING`; no tick moves `ICE_OFF`,
`ICE_START_HEIGHT_DELAY` or `ICE_START_DELAY` to `ICE_RUNNING`. No other
operation moves the state into `ICE_RUNNING`: after `engine_control` the state
is `ICE_RUNNING` only if it was before, and `throttle_override`,
`brake_override` and the gear command keep the state. -/
theorem C28_running_entered_from (p : Params) (e : TickEnv) (s : ICE) :
    ((determine_state p e s).ice.state = ICE_RUNNING →
      s.state = ICE_STARTING ∨ s.state = ICE_RUNNING) ∧
    (s.state = ICE_OFF ∨ s.state = ICE_START_HEIGHT_DELAY ∨ s.state = ICE_START_DELAY →
      (determine_state p e s).ice.state ≠ ICE_RUNNING) ∧
    (∀ (ce : ControlEnv) (start_control cold_start height_delay : Rat),
      (engine_control ce s start_control cold_start height_delay).ice.state = ICE_RUNNING →
      s.state = ICE_RUNNING) ∧
    (∀ (te : ThrottleEnv) (pct : Int), (throttle_override p te s pct).ice.state = s.state) ∧
    (∀ pct : Rat, (brake_override p s pct).ice.state = s.state) ∧
    (∀ (g : GearCodes) (gearState pwm_value : Nat),
      (handle_set_ice_transmission_state g s gearState pwm_value).ice.state = s.state) := by
  have hnot : s.state = ICE_OFF ∨ s.state = ICE_START_HEIGHT_DELAY ∨
      s.state = ICE_START_DELAY → (determine_state p e s).ice.state ≠ ICE_RUNNING := by
    rintro (hs | hs | hs)
    · rcases tick_from_off p e s hs with h | h <;> rw [h] <;> decide
    · rcases tick_from_height_delay p e s hs with h | h | h <;> rw [h] <;> decide
    · rcases tick_from_start_delay p e s hs with h | h | h <;> rw [h] <;> decide
  refine ⟨?_, hnot, ?_, fun te pct => (throttle_override_attempts p te s pct).2,
    fun pct => by rw [brake_override_ice],
    fun g a b => (gear_command_attempts g s a b).2⟩
  · intro hfin
    cases hs : s.state with
    | ICE_OFF => exact absurd hfin (hnot (Or.inl hs))
    | ICE_START_HEIGHT_DELAY => exact absurd hfin (hnot (Or.inr (Or.inl hs)))
    | ICE_START_DELAY => exact absurd hfin (hnot (Or.inr (Or.inr hs)))
    | ICE_STARTING => exact Or.inl rfl
    | ICE_RUNNING => exact Or.inr rfl
  · intro ce a b c hfin
    rcases engine_control_state ce s a b c with h | h | h | h
    · rw [← h]; exact hfin
    · rw [h] at hfin; cases hfin
    · rw [h] at hfin; cases hfin
    · rw [h] at hfin; cases hfin

end AP_ICEngine
